import Mathlib

/-!
# Submariner: shallow embedding of the egress-IP reconciler, the endpoint handler and the pinger

Sources embedded here:

* `pkg/controllers/globalnetdataplane/base_controllers.go`
  (`maxRequeues`, `shouldRequeue`, `FlushAllocatedIPRules`, `getTargetSNATIPaddress`,
  `checkStatusChanged`);
* `pkg/globalnet/controllers/global_egressip_controller.go`
  (`process`, `validate`, `onCreateOrUpdate`, `programGlobalEgressRules`, `allocateGlobalIPs`,
  `onRemove`, `getIPSetName`, `createPodWatcher`, `flushGlobalEgressRulesAndReleaseIPs`,
  `newNamedIPSet`, `tryAppendStatusCondition`, `Stop`);
* `pkg/routeagent_driver/handlers/kubeproxy/endpoint_handler.go`
  (`RemoteEndpointCreated`, `RemoteEndpointRemoved`);
* `pkg/cableengine/healthchecker/pinger.go`
  (`Start`, `Stop`, `doPing` with its hooks `OnSend` and `OnRecv`).

Go `int` values are `Int`; a Go run-time panic is the value `none` of an `Option` result;
an `error` result is an `Option String` (`none` is the Go `nil`).
-/

namespace Submariner

/-! ## Base utilities -/

/-- Go: `const maxRequeues = 20`. -/
def maxRequeues : Int := 20

/-- Go: `func shouldRequeue(numRequeues int) bool`. -/
def shouldRequeue (numRequeues : Int) : Bool :=
  decide (numRequeues < maxRequeues)

/-- Go: `func FlushAllocatedIPRules(key, numRequeues, flushRules, allocatedIPs...) bool`.
The callback is represented by the error it returns for a given list. -/
def FlushAllocatedIPRules (_key : String) (numRequeues : Int)
    (flushRules : List String → Option String) (allocatedIPs : List String) : Bool :=
  if allocatedIPs.length = 0 then
    false
  else
    match flushRules allocatedIPs with
    | some _ => if shouldRequeue numRequeues then true else false
    | none => false

/-- Go: `func getTargetSNATIPaddress(allocIPs []string) string`.
Indexing an empty slice panics, which is the result `none`. -/
def getTargetSNATIPaddress (allocIPs : List String) : Option String :=
  let allocatedIPs := allocIPs.length
  if allocatedIPs = 1 then
    allocIPs[0]?
  else
    match allocIPs[0]?, allocIPs[allocIPs.length - 1]? with
    | some first, some last => some (first ++ "-" ++ last)
    | _, _ => none

/-! ## SHA-256 (FIPS 180-4) and RFC 4648 Base-32 -/

namespace SHA256

/-- Addition of 32-bit words. -/
def add32 (a b : Nat) : Nat := (a + b) % 2 ^ 32

/-- Rotate a 32-bit word right by `n` bits. -/
def rotr (x n : Nat) : Nat := ((x >>> n) ||| (x <<< (32 - n))) % 2 ^ 32

/-- Bitwise complement of a 32-bit word. -/
def not32 (x : Nat) : Nat := (2 ^ 32 - 1) ^^^ x

/-- The SHA-256 function `Ch`. -/
def ch (x y z : Nat) : Nat := (x &&& y) ^^^ (not32 x &&& z)

/-- The SHA-256 function `Maj`. -/
def maj (x y z : Nat) : Nat := (x &&& y) ^^^ (x &&& z) ^^^ (y &&& z)

/-- The SHA-256 function `Σ0`. -/
def bigSigma0 (x : Nat) : Nat := rotr x 2 ^^^ rotr x 13 ^^^ rotr x 22

/-- The SHA-256 function `Σ1`. -/
def bigSigma1 (x : Nat) : Nat := rotr x 6 ^^^ rotr x 11 ^^^ rotr x 25

/-- The SHA-256 function `σ0`. -/
def smallSigma0 (x : Nat) : Nat := rotr x 7 ^^^ rotr x 18 ^^^ (x >>> 3)

/-- The SHA-256 function `σ1`. -/
def smallSigma1 (x : Nat) : Nat := rotr x 17 ^^^ rotr x 19 ^^^ (x >>> 10)

/-- The 64 round constants of FIPS 180-4, section 4.2.2 (the first 32 bits of the fractional
parts of the cube roots of the first 64 primes), written in decimal. -/
def K : List Nat :=
  [1116352408, 1899447441, 3049323471, 3921009573, 961987163, 1508970993,
   2453635748, 2870763221, 3624381080, 310598401, 607225278, 1426881987,
   1925078388, 2162078206, 2614888103, 3248222580, 3835390401, 4022224774,
   264347078, 604807628, 770255983, 1249150122, 1555081692, 1996064986,
   2554220882, 2821834349, 2952996808, 3210313671, 3336571891, 3584528711,
   113926993, 338241895, 666307205, 773529912, 1294757372, 1396182291,
   1695183700, 1986661051, 2177026350, 2456956037, 2730485921, 2820302411,
   3259730800, 3345764771, 3516065817, 3600352804, 4094571909, 275423344,
   430227734, 506948616, 659060556, 883997877, 958139571, 1322822218,
   1537002063, 1747873779, 1955562222, 2024104815, 2227730452, 2361852424,
   2428436474, 2756734187, 3204031479, 3329325298]

/-- The eight working variables / chaining values. -/
structure State where
  a : Nat
  b : Nat
  c : Nat
  d : Nat
  e : Nat
  f : Nat
  g : Nat
  h : Nat
deriving DecidableEq, Repr

/-- Initial hash value. -/
def H0 : State :=
  ⟨0x6a09e667, 0xbb67ae85, 0x3c6ef372, 0xa54ff53a, 0x510e527f, 0x9b05688c, 0x1f83d9ab, 0x5be0cd19⟩

/-- Padding: a `0x80` byte, zero bytes up to 56 mod 64, then the bit length on 8 bytes. -/
def pad (msg : List Nat) : List Nat :=
  let l := msg.length
  let zeros := (119 - l % 64) % 64
  let bits := 8 * l
  msg ++ [0x80] ++ List.replicate zeros 0 ++
    (List.range 8).map (fun i => (bits >>> (8 * (7 - i))) % 256)

/-- Big-endian 32-bit words of a byte list (length a multiple of 4). -/
def toWords : List Nat → List Nat
  | b0 :: b1 :: b2 :: b3 :: rest => (b0 * 2 ^ 24 + b1 * 2 ^ 16 + b2 * 2 ^ 8 + b3) :: toWords rest
  | _ => []

/-- Message schedule: extend 16 words by `n` further words. -/
def schedule : Nat → List Nat → List Nat
  | 0, w => w
  | n + 1, w =>
    let t := w.length
    let x := add32 (add32 (smallSigma1 (w.getD (t - 2) 0)) (w.getD (t - 7) 0))
      (add32 (smallSigma0 (w.getD (t - 15) 0)) (w.getD (t - 16) 0))
    schedule n (w ++ [x])

/-- One round of the compression function. -/
def round (s : State) (kw : Nat × Nat) : State :=
  let t1 := add32 (add32 (add32 s.h (bigSigma1 s.e)) (add32 (ch s.e s.f s.g) kw.1)) kw.2
  let t2 := add32 (bigSigma0 s.a) (maj s.a s.b s.c)
  ⟨add32 t1 t2, s.a, s.b, s.c, add32 s.d t1, s.e, s.f, s.g⟩

/-- Compression of one 16-word block into the chaining value. -/
def compress (s : State) (block : List Nat) : State :=
  let w := schedule 48 block
  let r := (K.zip w).foldl round s
  ⟨add32 s.a r.a, add32 s.b r.b, add32 s.c r.c, add32 s.d r.d,
   add32 s.e r.e, add32 s.f r.f, add32 s.g r.g, add32 s.h r.h⟩

/-- Fold the compression function over the 16-word blocks of a word list. -/
def blocks : Nat → State → List Nat → State
  | 0, s, _ => s
  | n + 1, s, ws => blocks n (compress s (ws.take 16)) (ws.drop 16)

/-- Big-endian bytes of a 32-bit word. -/
def wordBytes (x : Nat) : List Nat :=
  [(x >>> 24) % 256, (x >>> 16) % 256, (x >>> 8) % 256, x % 256]

/-- The 32-byte digest of a byte list. -/
def sum256 (msg : List Nat) : List Nat :=
  let ws := toWords (pad msg)
  let s := blocks (ws.length / 16) H0 ws
  wordBytes s.a ++ wordBytes s.b ++ wordBytes s.c ++ wordBytes s.d ++
    wordBytes s.e ++ wordBytes s.f ++ wordBytes s.g ++ wordBytes s.h

end SHA256

/-- Go: `[]byte(s)`, the UTF-8 bytes of a string. -/
def stringBytes (s : String) : List Nat :=
  s.toList.flatMap (fun c => (String.utf8EncodeChar c).map UInt8.toNat)

namespace Base32

/-- The alphabet of `base32.StdEncoding`. -/
def alphabet : List Char := "ABCDEFGHIJKLMNOPQRSTUVWXYZ234567".toList

/-- Number of significant characters produced by a group of `k` bytes. -/
def groupChars (k : Nat) : Nat :=
  match k with
  | 1 => 2
  | 2 => 4
  | 3 => 5
  | 4 => 7
  | _ => 8

/-- Encode one group of at most five bytes into eight characters, `=`-padded. -/
def encodeGroup (bs : List Nat) : List Char :=
  let v := bs.getD 0 0 * 2 ^ 32 + bs.getD 1 0 * 2 ^ 24 + bs.getD 2 0 * 2 ^ 16 +
    bs.getD 3 0 * 2 ^ 8 + bs.getD 4 0
  let cs := (List.range 8).map (fun i => alphabet.getD ((v >>> (35 - 5 * i)) % 32) '=')
  cs.take (groupChars bs.length) ++ List.replicate (8 - groupChars bs.length) '='

/-- Encode the groups of five bytes of a byte list, at most `n` of them. -/
def encode : Nat → List Nat → List Char
  | 0, _ => []
  | n + 1, bs => encodeGroup (bs.take 5) ++ encode n (bs.drop 5)

/-- Go: `base32.StdEncoding.EncodeToString(src)`. -/
def EncodeToString (src : List Nat) : String :=
  String.mk (encode ((src.length + 4) / 5) src)

end Base32

/-! ## Kubernetes objects -/

/-- Go: `metav1.LabelSelector` (external type). A selector is represented by the list of its
label requirements in a canonical order, on which `equality.Semantic.DeepEqual` is
equality. -/
structure LabelSelector where
  matchLabels : List (String × String)
deriving DecidableEq, Repr

/-- Go: `metav1.ConditionStatus`. -/
inductive ConditionStatus
  | ConditionTrue
  | ConditionFalse
  | ConditionUnknown
deriving DecidableEq, Repr

/-- Go: `metav1.Condition`. The wall-clock field `LastTransitionTime` is not represented. -/
structure Condition where
  type : String
  status : ConditionStatus
  reason : String
  message : String
deriving DecidableEq, Repr

/-- Go: `submarinerv1.GlobalEgressIPAllocated`, the only condition type. -/
def GlobalEgressIPAllocated : String := "Allocated"

/-- Go: `submarinerv1.GlobalEgressIPSpec`; `NumberOfIPs` is a `*int`. -/
structure GlobalEgressIPSpec where
  NumberOfIPs : Option Int
  PodSelector : Option LabelSelector
deriving DecidableEq, Repr

/-- Go: `submarinerv1.GlobalEgressIPStatus`. -/
structure GlobalEgressIPStatus where
  Conditions : List Condition
  AllocatedIPs : List String
deriving DecidableEq, Repr

/-- Go: `submarinerv1.GlobalEgressIP`. -/
structure GlobalEgressIP where
  Namespace : String
  Name : String
  Spec : GlobalEgressIPSpec
  Status : GlobalEgressIPStatus
deriving DecidableEq, Repr

/-- Go: `cache.MetaNamespaceKeyFunc` (client-go): `namespace/name`, or `name` alone when the
namespace is empty. -/
def MetaNamespaceKeyFunc (obj : GlobalEgressIP) : String :=
  if obj.Namespace.length > 0 then obj.Namespace ++ "/" ++ obj.Name else obj.Name

/-- Go: `syncer.Operation`. -/
inductive Operation
  | Create
  | Update
  | Delete
deriving DecidableEq, Repr

/-- Modelled from the spec: `util.TryAppendCondition` of the admiral library is not under
src/. It appends only when the new condition differs in (status, reason, message) from the
most recent condition of the same type; `none` is the Go `nil` meaning no update. -/
def TryAppendCondition (conditions : List Condition) (newCond : Condition) :
    Option (List Condition) :=
  match (conditions.filter (fun c => c.type = newCond.type)).getLast? with
  | some last =>
    if last.status = newCond.status ∧ last.reason = newCond.reason ∧
        last.message = newCond.message then
      none
    else
      some (conditions ++ [newCond])
  | none => some (conditions ++ [newCond])

/-- Go: `func tryAppendStatusCondition(conditions *[]metav1.Condition, newCond)`; the result
is the new value of `*conditions`. -/
def tryAppendStatusCondition (conditions : List Condition) (newCond : Condition) :
    List Condition :=
  match TryAppendCondition conditions newCond with
  | none => conditions
  | some updatedConditions => updatedConditions

/-- Go: `func checkStatusChanged(oldStatus, newStatus interface{}, retObj) runtime.Object`;
`none` is the Go `nil`. -/
def checkStatusChanged {σ α : Type} [DecidableEq σ] (oldStatus newStatus : σ) (retObj : α) :
    Option α :=
  if oldStatus = newStatus then none else some retObj

/-! ## IP pool -/

/-- Modelled from the spec: the IP pool (`pkg/ipam`) is not under src/. The range is the
ordered list of its addresses; the state is the set of reserved addresses, every other
address of the range being free. -/
structure IPPool where
  range : List String
  reserved : Finset String
deriving DecidableEq

namespace IPPool

/-- Modelled from the spec: the free addresses of the pool, in range order. -/
def free (p : IPPool) : List String :=
  p.range.dedup.filter (fun ip => ip ∉ p.reserved)

/-- Modelled from the spec: `allocate(n)` reserves `n` previously-free addresses and fails
with `Exhausted` (the result `none`) if fewer than `n` are free; the addresses taken are the
first free ones of the range. -/
def Allocate (p : IPPool) (num : Int) : Option (List String × IPPool) :=
  if p.free.length < num.toNat then
    none
  else
    let ips := p.free.take num.toNat
    some (ips, { p with reserved := p.reserved ∪ ips.toFinset })

/-- Modelled from the spec: `release(ips...)` returns each address to the free set, is a
no-op on an already-free address and fails with `OutOfRange` (leaving the pool as it was) on
an address outside the range. -/
def Release (p : IPPool) (ips : List String) : IPPool × Option String :=
  if ips.all (fun ip => ip ∈ p.range) then
    ({ p with reserved := p.reserved \ ips.toFinset }, none)
  else
    (p, some "OutOfRange")

end IPPool

/-! ## External drivers and controller state -/

/-- Scope of an egress rule: the pod variant or the namespace variant. -/
inductive RuleScope
  | Pods
  | Namespace
deriving DecidableEq, Repr

/-- Arguments of `AddEgressRulesFor...` / `RemoveEgressRulesFor...` of the packet-filter
driver interface. -/
structure EgressRule where
  scope : RuleScope
  key : String
  ipSetName : String
  snatIP : String
  mark : String
deriving DecidableEq, Repr

/-- Calls the controller issues to its collaborators. -/
inductive Call
  | startPodWatcher (key : String) (ns : String) (ipSetName : String)
      (podSelector : Option LabelSelector)
  | closeStopCh (key : String)
  | ipSetCreate (name : String) (ignoreExisting : Bool)
  | ipSetDestroy (name : String)
  | AddEgressRules (r : EgressRule)
  | RemoveEgressRules (r : EgressRule)
  | poolAllocate (num : Int)
  | poolRelease (ips : List String)
deriving DecidableEq, Repr

/-- A call together with the error it returned (`none` is success). -/
structure Event where
  call : Call
  err : Option String
deriving DecidableEq, Repr

/-- Constants missing from src/ and the behaviour of the external drivers: `driver n call` is
the error returned by `call` when it is the `n`-th call issued so far. -/
structure Env where
  IPSetPrefix : String
  globalNetIPTableMark : String
  driver : Nat → Call → Option String

/-- Go: `ipset.Named` as built by `newNamedIPSet`; only its name matters here. -/
structure NamedIPSet where
  Name : String
deriving DecidableEq, Repr

/-- Go: `podWatcher` (fields used by the controller). -/
structure PodWatcher where
  podSelector : Option LabelSelector
  namedIPSet : NamedIPSet
  stopChClosed : Bool
deriving DecidableEq, Repr

/-- Go: `globalEgressIPController`: the pool, the `podWatchers` map (an association list), the
stop channel of the base controller, and the log of calls issued so far. -/
structure Controller where
  pool : IPPool
  podWatchers : List (String × PodWatcher)
  stopChClosed : Bool
  trace : List Event
deriving DecidableEq

/-- Issue a driver call: ask the environment for its outcome and log it. -/
def Controller.call (env : Env) (c : Controller) (call : Call) : Controller × Option String :=
  let err := env.driver c.trace.length call
  ({ c with trace := c.trace ++ [⟨call, err⟩] }, err)

/-- Log a pool operation together with its outcome. -/
def Controller.log (c : Controller) (ev : Event) : Controller :=
  { c with trace := c.trace ++ [ev] }

/-- Go: `_ = c.pool.Release(ips...)`: release the addresses and log the call with its
outcome. -/
def Controller.release (c : Controller) (ips : List String) : Controller :=
  ({ c with pool := (c.pool.Release ips).1 }).log ⟨Call.poolRelease ips, (c.pool.Release ips).2⟩

/-- Go: `strconv.Quote` as used by the `%q` verb, for strings without special characters. -/
def goQuote (s : String) : String := "\"" ++ s ++ "\""

/-! ## The GlobalEgressIP controller -/

/-- Go: `func (c *globalEgressIPController) getIPSetName(key string) string`. -/
def getIPSetName (env : Env) (key : String) : String :=
  let hash := SHA256.sum256 (stringBytes key)
  let encoded := Base32.EncodeToString hash
  -- Max length of IPSet name can be 31
  env.IPSetPrefix ++ String.mk (encoded.toList.take 25)

/-- Go: `func (c *globalEgressIPController) newNamedIPSet(key string) ipset.Named`. -/
def newNamedIPSet (env : Env) (key : String) : NamedIPSet :=
  { Name := getIPSetName env key }

/-- Set `Status.Conditions` through `tryAppendStatusCondition`. -/
def GlobalEgressIP.appendCondition (g : GlobalEgressIP) (newCond : Condition) : GlobalEgressIP :=
  { g with Status := { g.Status with
      Conditions := tryAppendStatusCondition g.Status.Conditions newCond } }

/-- Assign `Status.AllocatedIPs`. -/
def GlobalEgressIP.setAllocatedIPs (g : GlobalEgressIP) (ips : List String) : GlobalEgressIP :=
  { g with Status := { g.Status with AllocatedIPs := ips } }

/-- Go: the condition literal of `validate` for a negative `numberOfIPs`. -/
def condInvalidInput : Condition :=
  { type := GlobalEgressIPAllocated
    status := ConditionStatus.ConditionFalse
    reason := "InvalidInput"
    message := "The NumberOfIPs cannot be negative" }

/-- Go: the condition literal of `validate` for `numberOfIPs == 0`. -/
def condZeroInput : Condition :=
  { type := GlobalEgressIPAllocated
    status := ConditionStatus.ConditionFalse
    reason := "ZeroInput"
    message := "The specified NumberOfIPs is 0" }

/-- Go: the condition literal of `createPodWatcher`. -/
def condPodSelectorUpdateNotSupported : Condition :=
  { type := GlobalEgressIPAllocated
    status := ConditionStatus.ConditionFalse
    reason := "PodSelectorUpdateNotSupported"
    message := "PodSelector cannot be updated after creation" }

/-- Go: the condition literal of `allocateGlobalIPs` for a failed `pool.Allocate`. -/
def condIPPoolAllocationFailed (numberOfIPs : Int) (err : String) : Condition :=
  { type := GlobalEgressIPAllocated
    status := ConditionStatus.ConditionFalse
    reason := "IPPoolAllocationFailed"
    message := "Error allocating " ++ toString numberOfIPs ++
      " global IP(s) from the pool: " ++ err }

/-- Go: the condition literal of `allocateGlobalIPs` for a failed `programGlobalEgressRules`. -/
def condProgramIPTableRulesFailed (err : String) : Condition :=
  { type := GlobalEgressIPAllocated
    status := ConditionStatus.ConditionFalse
    reason := "ProgramIPTableRulesFailed"
    message := "Error programming egress rules: " ++ err }

/-- Go: the condition literal of `allocateGlobalIPs` on success. -/
def condSuccess (numberOfIPs : Int) : Condition :=
  { type := GlobalEgressIPAllocated
    status := ConditionStatus.ConditionTrue
    reason := "Success"
    message := "Allocated " ++ toString numberOfIPs ++ " global IP(s)" }

/-- Go: `func (c *globalEgressIPController) validate(numberOfIPs int, egressIP) bool`; the
second component is the object after the call. -/
def validate (numberOfIPs : Int) (egressIP : GlobalEgressIP) : Bool × GlobalEgressIP :=
  if numberOfIPs < 0 then
    (false, egressIP.appendCondition condInvalidInput)
  else if numberOfIPs = 0 then
    (false, egressIP.appendCondition condZeroInput)
  else
    (true, egressIP)

/-- Go: `func (c *globalEgressIPController) createPodWatcher(key, globalEgressIP)
(ipset.Named, bool)`; the `bool` is whether the third component is `some`. Starting the pod
watcher (`startPodWatcher`, not under src/) is a driver call; the watcher it returns holds the
IP set it was given. -/
def createPodWatcher (env : Env) (c : Controller) (key : String) (globalEgressIP : GlobalEgressIP) :
    Controller × GlobalEgressIP × Option NamedIPSet :=
  match c.podWatchers.lookup key with
  | some prevPodWatcher =>
    let g :=
      if prevPodWatcher.podSelector ≠ globalEgressIP.Spec.PodSelector then
        globalEgressIP.appendCondition condPodSelectorUpdateNotSupported
      else globalEgressIP
    (c, g, some prevPodWatcher.namedIPSet)
  | none =>
    let namedIPSet := newNamedIPSet env key
    match c.call env (Call.startPodWatcher key globalEgressIP.Namespace namedIPSet.Name
        globalEgressIP.Spec.PodSelector) with
    | (c1, some _) => (c1, globalEgressIP, none)
    | (c1, none) =>
      let podWatcher : PodWatcher :=
        { podSelector := globalEgressIP.Spec.PodSelector
          namedIPSet := namedIPSet
          stopChClosed := false }
      ({ c1 with podWatchers := (key, podWatcher) :: c1.podWatchers }, globalEgressIP,
        some namedIPSet)

/-- Modelled from the spec: `baseIPAllocationController.flushRulesAndReleaseIPs` is not under
src/. It removes the egress rules of the current allocation through the callback, requeues on
failure when `numRequeues < maxRequeues`, and otherwise releases the IPs to the pool; with no
allocation it does nothing. -/
def flushRulesAndReleaseIPs (c : Controller) (_key : String) (numRequeues : Int)
    (flushRules : Controller → List String → Option (Controller × Option String))
    (allocatedIPs : List String) : Option (Controller × Bool) :=
  if allocatedIPs.length = 0 then
    some (c, false)
  else
    match flushRules c allocatedIPs with
    | none => none
    | some (c1, err) =>
      if err.isSome && shouldRequeue numRequeues then
        some (c1, true)
      else
        some (c1.release allocatedIPs, false)

/-- The scope of the rules of an object: pod variant iff `podSelector != nil`. -/
def ruleScope (podSelector : Option LabelSelector) : RuleScope :=
  if podSelector.isSome then RuleScope.Pods else RuleScope.Namespace

/-- The arguments `(key, ipSetName, snatIP, globalNetIPTableMark)` passed to the packet-filter
driver, with the variant chosen by `podSelector != nil`. -/
def egressRule (env : Env) (podSelector : Option LabelSelector) (key ipSetName snatIP : String) :
    EgressRule :=
  { scope := ruleScope podSelector
    key := key
    ipSetName := ipSetName
    snatIP := snatIP
    mark := env.globalNetIPTableMark }

/-- Go: `func (c *globalEgressIPController) flushGlobalEgressRulesAndReleaseIPs(key, ipSetName,
numRequeues, globalEgressIP) bool`. -/
def flushGlobalEgressRulesAndReleaseIPs (env : Env) (c : Controller) (key ipSetName : String)
    (numRequeues : Int) (globalEgressIP : GlobalEgressIP) : Option (Controller × Bool) :=
  flushRulesAndReleaseIPs c key numRequeues
    (fun c0 allocatedIPs =>
      match getTargetSNATIPaddress allocatedIPs with
      | none => none
      | some snatIP =>
        some (c0.call env (Call.RemoveEgressRules
          (egressRule env globalEgressIP.Spec.PodSelector key ipSetName snatIP))))
    globalEgressIP.Status.AllocatedIPs

/-- Go: `func (c *globalEgressIPController) programGlobalEgressRules(key, allocatedIPs,
podSelector, namedIPSet) error`. -/
def programGlobalEgressRules (env : Env) (c : Controller) (key : String)
    (allocatedIPs : List String) (podSelector : Option LabelSelector) (namedIPSet : NamedIPSet) :
    Option (Controller × Option String) :=
  match c.call env (Call.ipSetCreate namedIPSet.Name true) with
  | (c1, some err) =>
    some (c1, some ("error creating the IP set chain " ++ goQuote namedIPSet.Name ++ ": " ++ err))
  | (c1, none) =>
    match getTargetSNATIPaddress allocatedIPs with
    | none => none
    | some snatIP =>
      let ipSetName := getIPSetName env key
      let rule := egressRule env podSelector key ipSetName snatIP
      match c1.call env (Call.AddEgressRules rule) with
      | (c2, some err) =>
        let (c3, _) := c2.call env (Call.RemoveEgressRules rule)
        some (c3, some err)
      | (c2, none) => some (c2, none)

/-- Go: `func (c *globalEgressIPController) allocateGlobalIPs(key, numberOfIPs, globalEgressIP,
namedIPSet) bool`. -/
def allocateGlobalIPs (env : Env) (c : Controller) (key : String) (numberOfIPs : Int)
    (globalEgressIP : GlobalEgressIP) (namedIPSet : NamedIPSet) :
    Option (Controller × GlobalEgressIP × Bool) :=
  let g0 := globalEgressIP.setAllocatedIPs []
  if numberOfIPs = 0 then
    some (c, g0, false)
  else
    match c.pool.Allocate numberOfIPs with
    | none =>
      let err := "Exhausted"
      some (c.log ⟨Call.poolAllocate numberOfIPs, some err⟩,
        g0.appendCondition (condIPPoolAllocationFailed numberOfIPs err), true)
    | some (allocatedIPs, pool1) =>
      let c1 := ({ c with pool := pool1 }).log ⟨Call.poolAllocate numberOfIPs, none⟩
      match programGlobalEgressRules env c1 key allocatedIPs g0.Spec.PodSelector namedIPSet with
      | none => none
      | some (c2, some err) =>
        some (c2.release allocatedIPs, g0.appendCondition (condProgramIPTableRulesFailed err),
          true)
      | some (c2, none) =>
        some (c2, (g0.appendCondition (condSuccess numberOfIPs)).setAllocatedIPs allocatedIPs,
          false)

/-- Go: `func (c *globalEgressIPController) onCreateOrUpdate(key, numberOfIPs, globalEgressIP,
numRequeues) bool`. -/
def onCreateOrUpdate (env : Env) (c : Controller) (key : String) (numberOfIPs : Int)
    (globalEgressIP : GlobalEgressIP) (numRequeues : Int) :
    Option (Controller × GlobalEgressIP × Bool) :=
  match createPodWatcher env c key globalEgressIP with
  | (c1, g1, none) => some (c1, g1, true)
  | (c1, g1, some namedIPSet) =>
    if numberOfIPs = (g1.Status.AllocatedIPs.length : Int) then
      some (c1, g1, false)
    else
      match flushGlobalEgressRulesAndReleaseIPs env c1 key namedIPSet.Name numRequeues g1 with
      | none => none
      | some (c2, true) => some (c2, g1, true)
      | some (c2, false) => allocateGlobalIPs env c2 key numberOfIPs g1 namedIPSet

/-- Go: `func (c *globalEgressIPController) onRemove(numRequeues int, globalEgressIP) bool`.
Closing an already closed stop channel panics. -/
def onRemove (env : Env) (c : Controller) (numRequeues : Int) (globalEgressIP : GlobalEgressIP) :
    Option (Controller × Bool) :=
  let key := MetaNamespaceKeyFunc globalEgressIP
  let stopped : Option Controller :=
    match c.podWatchers.lookup key with
    | some podWatcher =>
      if podWatcher.stopChClosed then none
      else
        some (({ c with podWatchers := c.podWatchers.filter (fun kv => kv.1 ≠ key) }).log
          ⟨Call.closeStopCh key, none⟩)
    | none => some c
  match stopped with
  | none => none
  | some c1 =>
    let namedIPSet := newNamedIPSet env key
    match flushGlobalEgressRulesAndReleaseIPs env c1 key namedIPSet.Name numRequeues
        globalEgressIP with
    | none => none
    | some (c2, true) => some (c2, true)
    | some (c2, false) =>
      match c2.call env (Call.ipSetDestroy namedIPSet.Name) with
      | (c3, some _) => if shouldRequeue numRequeues then some (c3, true) else some (c3, false)
      | (c3, none) => some (c3, false)

/-- Go: lines 127-130 of `process`: `numberOfIPs` is `*Spec.NumberOfIPs`, or 1 when the pointer
is nil. -/
def specNumberOfIPs (globalEgressIP : GlobalEgressIP) : Int :=
  match globalEgressIP.Spec.NumberOfIPs with
  | some n => n
  | none => 1

/-- Outcome of `process`: the object returned for write-back (`none` is the Go `nil`), the
requeue flag, the object as left by the call (it is mutated in place), and the controller. -/
structure ProcessResult where
  out : Option GlobalEgressIP
  requeue : Bool
  obj : GlobalEgressIP
  ctl : Controller
deriving DecidableEq

/-- Go: `func (c *globalEgressIPController) process(from runtime.Object, numRequeues int,
op syncer.Operation) (runtime.Object, bool)`. -/
def process (env : Env) (c : Controller) (globalEgressIP : GlobalEgressIP) (numRequeues : Int)
    (op : Operation) : Option ProcessResult :=
  let numberOfIPs := specNumberOfIPs globalEgressIP
  let key := MetaNamespaceKeyFunc globalEgressIP
  match op with
  | Operation.Create | Operation.Update =>
    let prevStatus := globalEgressIP.Status
    let (valid, g1) := validate numberOfIPs globalEgressIP
    let run : Option (Controller × GlobalEgressIP × Bool) :=
      if valid then onCreateOrUpdate env c key numberOfIPs g1 numRequeues
      else some (c, g1, false)
    match run with
    | none => none
    | some (c2, g2, requeue) =>
      some { out := checkStatusChanged prevStatus g2.Status g2, requeue := requeue,
             obj := g2, ctl := c2 }
  | Operation.Delete =>
    match onRemove env c numRequeues globalEgressIP with
    | none => none
    | some (c2, requeue) => some { out := none, requeue := requeue, obj := globalEgressIP, ctl := c2 }

/-- The calls issued between the controller state `c` and the later state `c2`. -/
def newCalls (c c2 : Controller) : List Event :=
  c2.trace.drop c.trace.length

/-- The most recent condition of the given type. -/
def lastOfType (conditions : List Condition) (type : String) : Option Condition :=
  (conditions.filter (fun c => c.type = type)).getLast?

/-- An event that is neither a pool allocation, nor the programming of egress rules, nor the
creation of an IP set. -/
def Event.quiet (ev : Event) : Prop :=
  (∀ n, ev.call ≠ Call.poolAllocate n) ∧ (∀ r, ev.call ≠ Call.AddEgressRules r) ∧
    (∀ name b, ev.call ≠ Call.ipSetCreate name b)

/-- The controller `c2` is `c` after some further calls, each of which satisfies `P`. -/
def Steps (P : Event → Prop) (c c2 : Controller) : Prop :=
  ∃ evs, c2.trace = c.trace ++ evs ∧ ∀ ev ∈ evs, P ev

/-- The controller `c2` is `c` after some quiet calls. -/
def Quiet (c c2 : Controller) : Prop :=
  Steps Event.quiet c c2

/-! ## Concrete inputs used by the witnesses and counterexamples -/

/-- An environment in which every driver call succeeds. -/
def exampleEnv : Env :=
  { IPSetPrefix := "SM-GN-"
    globalNetIPTableMark := "0xC0000/0xC0000"
    driver := fun _ _ => none }

/-- An environment in which adding egress rules fails and every other driver call succeeds. -/
def addFailsEnv : Env :=
  { IPSetPrefix := "SM-GN-"
    globalNetIPTableMark := "0xC0000/0xC0000"
    driver := fun _ call =>
      match call with
      | Call.AddEgressRules _ => some "iptables: resource temporarily unavailable"
      | _ => none }

/-- An environment in which creating an IP set fails and every other driver call succeeds. -/
def createFailsEnv : Env :=
  { IPSetPrefix := "SM-GN-"
    globalNetIPTableMark := "0xC0000/0xC0000"
    driver := fun _ call =>
      match call with
      | Call.ipSetCreate _ _ => some "ipset: kernel error"
      | _ => none }

/-- The pool `10.0.0.1 .. 10.0.0.3` with the given reserved addresses. -/
def examplePool (reserved : List String) : IPPool :=
  { range := ["10.0.0.1", "10.0.0.2", "10.0.0.3"], reserved := reserved.toFinset }

/-- A controller with the given pool and pod watchers, before any call. -/
def exampleController (reserved : List String) (podWatchers : List (String × PodWatcher)) :
    Controller :=
  { pool := examplePool reserved, podWatchers := podWatchers, stopChClosed := false, trace := [] }

/-- The object `ns/a` with the given `numberOfIPs`, pod selector and status. -/
def exampleObject (numberOfIPs : Option Int) (podSelector : Option LabelSelector)
    (conditions : List Condition) (allocatedIPs : List String) : GlobalEgressIP :=
  { Namespace := "ns"
    Name := "a"
    Spec := { NumberOfIPs := numberOfIPs, PodSelector := podSelector }
    Status := { Conditions := conditions, AllocatedIPs := allocatedIPs } }

/-! ## The endpoint sync handler (`pkg/routeagent_driver/handlers/kubeproxy`) -/

namespace kubeproxy

/-- Go: `submV1.Endpoint` (the fields read by the handler); the creation timestamp is a number
of seconds. -/
structure Endpoint where
  Hostname : String
  PrivateIP : String
  Backend : String
  Subnets : List String
  ClusterID : String
  CreationTimestamp : Int
deriving DecidableEq, Repr

/-- Go: `Operation` of package kubeproxy, with its constants `Add` and `Delete`. -/
inductive Operation
  | Add
  | Delete
deriving DecidableEq, Repr

/-- The routing and packet-filter updates of the handler (methods of `SyncHandler` that are
not under src/); they are calls to the host's network stack. -/
inductive RouteCall
  | updateRoutingRulesForInterClusterSupport (subnets : List String) (operation : Operation)
  | updateRoutingRulesForHostNetworkSupport (subnets : List String) (operation : Operation)
  | updateIptableRulesForInterClusterTraffic (subnets : List String) (operation : Operation)
deriving DecidableEq, Repr

/-- A routing update together with the error it returned (`none` is success). -/
structure RouteEvent where
  call : RouteCall
  err : Option String
deriving DecidableEq, Repr

/-- What the handler takes from outside src/: `cidr.OverlappingSubnets`, the method
`Endpoint.GatewayIP`, and the outcome of `updateRoutingRulesForInterClusterSupport` when it is
the `n`-th routing update issued so far. -/
structure HandlerEnv where
  OverlappingSubnets : List String → List String → List String → Option String
  GatewayIP : Endpoint → String
  routing : Nat → List String → Operation → Option String

/-- Go: `SyncHandler` (the fields of the spec's handler state); maps are functions into
`Option`, sets are finite sets, and `trace` is the log of the routing updates issued. -/
structure SyncHandler where
  hostname : String
  isGatewayNode : Bool
  gwIPs : Finset String
  remoteSubnets : Finset String
  remoteSubnetGw : String → Option String
  remoteEndpointTimeStamp : String → Option Int
  localServiceCidr : List String
  localClusterCidr : List String
  trace : List RouteEvent

/-- Log a routing update together with its outcome. -/
def SyncHandler.log (kp : SyncHandler) (call : RouteCall) (err : Option String) : SyncHandler :=
  { kp with trace := kp.trace ++ [⟨call, err⟩] }

/-- Go: `lastProcessedTime, ok := kp.remoteEndpointTimeStamp[clusterID]` followed by the test
`ok && lastProcessedTime.After(endpoint.CreationTimestamp.Time)`. -/
def laterEndpointProcessed (kp : SyncHandler) (endpoint : Endpoint) : Bool :=
  match kp.remoteEndpointTimeStamp endpoint.ClusterID with
  | some lastProcessedTime => decide (lastProcessedTime > endpoint.CreationTimestamp)
  | none => false

/-- Go: the body of the loop of `RemoteEndpointCreated` (lines 110-117) for one subnet. -/
def addRemoteSubnet (gwIP : String) (kp : SyncHandler) (inputCidrBlock : String) : SyncHandler :=
  { kp with
    remoteSubnets :=
      if inputCidrBlock ∈ kp.remoteSubnets then kp.remoteSubnets
      else insert inputCidrBlock kp.remoteSubnets
    remoteSubnetGw := Function.update kp.remoteSubnetGw inputCidrBlock (some gwIP) }

/-- Go: the body of the loop of `RemoteEndpointRemoved` (lines 152-155) for one subnet. -/
def removeRemoteSubnet (kp : SyncHandler) (inputCidrBlock : String) : SyncHandler :=
  { kp with
    remoteSubnets := kp.remoteSubnets.erase inputCidrBlock
    remoteSubnetGw := Function.update kp.remoteSubnetGw inputCidrBlock none }

/-- Go: `func (kp *SyncHandler) RemoteEndpointCreated(endpoint *submV1.Endpoint) error`; the
result is the handler after the call and the error returned. -/
def RemoteEndpointCreated (env : HandlerEnv) (kp : SyncHandler) (endpoint : Endpoint) :
    SyncHandler × Option String :=
  match env.OverlappingSubnets kp.localServiceCidr kp.localClusterCidr endpoint.Subnets with
  | some _ =>
    -- Skip processing the endpoint when CIDRs overlap and return nil to avoid re-queuing.
    (kp, none)
  | none =>
    if laterEndpointProcessed kp endpoint then
      (kp, none)
    else
      let kp1 := endpoint.Subnets.foldl (addRemoteSubnet (env.GatewayIP endpoint)) kp
      match env.routing kp1.trace.length endpoint.Subnets Operation.Add with
      | some err =>
        (kp1.log (RouteCall.updateRoutingRulesForInterClusterSupport endpoint.Subnets
          Operation.Add) (some err), some err)
      | none =>
        let kp2 := kp1.log (RouteCall.updateRoutingRulesForInterClusterSupport endpoint.Subnets
          Operation.Add) none
        let kp3 := kp2.log (RouteCall.updateRoutingRulesForHostNetworkSupport endpoint.Subnets
          Operation.Add) none
        let kp4 := kp3.log (RouteCall.updateIptableRulesForInterClusterTraffic endpoint.Subnets
          Operation.Add) none
        ({ kp4 with
            remoteEndpointTimeStamp :=
              Function.update kp4.remoteEndpointTimeStamp endpoint.ClusterID
                (some endpoint.CreationTimestamp) }, none)

/-- Go: `func (kp *SyncHandler) RemoteEndpointRemoved(endpoint *submV1.Endpoint) error`. -/
def RemoteEndpointRemoved (env : HandlerEnv) (kp : SyncHandler) (endpoint : Endpoint) :
    SyncHandler × Option String :=
  if laterEndpointProcessed kp endpoint then
    (kp, none)
  else
    let kp0 : SyncHandler :=
      { kp with
        remoteEndpointTimeStamp :=
          Function.update kp.remoteEndpointTimeStamp endpoint.ClusterID none }
    let kp1 := endpoint.Subnets.foldl removeRemoteSubnet kp0
    match env.routing kp1.trace.length endpoint.Subnets Operation.Delete with
    | some err =>
      (kp1.log (RouteCall.updateRoutingRulesForInterClusterSupport endpoint.Subnets
        Operation.Delete) (some err), some err)
    | none =>
      let kp2 := kp1.log (RouteCall.updateRoutingRulesForInterClusterSupport endpoint.Subnets
        Operation.Delete) none
      let kp3 := kp2.log (RouteCall.updateRoutingRulesForHostNetworkSupport endpoint.Subnets
        Operation.Delete) none
      (kp3.log (RouteCall.updateIptableRulesForInterClusterTraffic endpoint.Subnets
        Operation.Delete) none, none)

/-- A remote endpoint notification delivered to the handler. -/
inductive RemoteEvent
  | Created (endpoint : Endpoint)
  | Removed (endpoint : Endpoint)
deriving DecidableEq, Repr

/-- The handler after one remote endpoint notification. -/
def step (env : HandlerEnv) (kp : SyncHandler) (ev : RemoteEvent) : SyncHandler :=
  match ev with
  | RemoteEvent.Created endpoint => (RemoteEndpointCreated env kp endpoint).1
  | RemoteEvent.Removed endpoint => (RemoteEndpointRemoved env kp endpoint).1

/-- The handler after a sequence of remote endpoint notifications. -/
def run (env : HandlerEnv) (kp : SyncHandler) (evs : List RemoteEvent) : SyncHandler :=
  evs.foldl (step env) kp

/-- The record of `clusterID` is present after every notification of the sequence, that is,
no `RemoteEndpointRemoved` of the sequence has cleared it. -/
def recordKept (env : HandlerEnv) (clusterID : String) : SyncHandler → List RemoteEvent → Prop
  | _, [] => True
  | kp, ev :: evs =>
    (step env kp ev).remoteEndpointTimeStamp clusterID ≠ none ∧
      recordKept env clusterID (step env kp ev) evs

/-- An environment without overlapping subnets, in which every routing update succeeds and
the gateway IP of an endpoint is its private IP. -/
def exampleHandlerEnv : HandlerEnv :=
  { OverlappingSubnets := fun _ _ _ => none
    GatewayIP := fun endpoint => endpoint.PrivateIP
    routing := fun _ _ _ => none }

/-- A handler that has seen no endpoint yet. -/
def exampleHandler : SyncHandler :=
  { hostname := "node-1"
    isGatewayNode := false
    gwIPs := ∅
    remoteSubnets := ∅
    remoteSubnetGw := fun _ => none
    remoteEndpointTimeStamp := fun _ => none
    localServiceCidr := ["100.94.0.0/16"]
    localClusterCidr := ["10.244.0.0/16"]
    trace := [] }

/-- A remote endpoint of cluster `X` with the given subnets, gateway and creation time. -/
def exampleEndpoint (subnets : List String) (privateIP : String) (creationTimestamp : Int) :
    Endpoint :=
  { Hostname := "gw-x"
    PrivateIP := privateIP
    Backend := "libreswan"
    Subnets := subnets
    ClusterID := "X"
    CreationTimestamp := creationTimestamp }

end kubeproxy

/-! ## Stopping the controllers -/

/-- Go: `baseController` of `base_controllers.go`: its stop channel. -/
structure baseController where
  stopChClosed : Bool
deriving DecidableEq, Repr

/-- Go: `func (c *baseController) Stop()`, that is `close(c.stopCh)`; closing a closed channel
panics (the result `none`). -/
def baseController.Stop (c : baseController) : Option baseController :=
  if c.stopChClosed then none else some { c with stopChClosed := true }

/-- Go: `func (c *globalEgressIPController) Stop()`: stop the base controller, then close the
stop channel of every pod watcher; closing a closed channel panics (the result `none`). -/
def Controller.Stop (c : Controller) : Option Controller :=
  match baseController.Stop { stopChClosed := c.stopChClosed } with
  | none => none
  | some base =>
    if c.podWatchers.any (fun kv => kv.2.stopChClosed) then
      none
    else
      some { c with
        stopChClosed := base.stopChClosed
        podWatchers := c.podWatchers.map (fun kv => (kv.1, { kv.2 with stopChClosed := true })) }

/-! ## The latency pinger (`pkg/cableengine/healthchecker`) -/

namespace healthchecker

/-- Go: `ConnectionStatus` with its constants `Connected`, `ConnectionUnknown` and
`ConnectionError` (declared outside src/; the spec lists these three values). -/
inductive ConnectionStatus
  | Connected
  | ConnectionUnknown
  | ConnectionError
deriving DecidableEq, Repr

/-- Modelled from the spec: the type `statistics` is not under src/. The rolling buffer holds
at most `size` round-trip times. -/
structure statistics where
  size : Nat
  previousRtts : List Nat
deriving DecidableEq, Repr

/-- Modelled from the spec: `statistics.update` is not under src/. The sample is appended to
the rolling buffer; on overflow the buffer is cleared and the new sample becomes its first
entry. -/
def statistics.update (s : statistics) (rtt : Nat) : statistics :=
  if s.size ≤ s.previousRtts.length then { s with previousRtts := [rtt] }
  else { s with previousRtts := s.previousRtts ++ [rtt] }

/-- Go: `pingerInfo` (without its mutex); durations are in nanoseconds, `maxPacketLossCount` is
a `uint`, and the stop channel is represented by whether it is closed. -/
structure pingerInfo where
  ip : String
  pingInterval : Nat
  pingTimeout : Nat
  maxPacketLossCount : Nat
  statistics : statistics
  failureMsg : String
  connectionStatus : ConnectionStatus
  stopChClosed : Bool
deriving DecidableEq, Repr

/-- Go: `func (p *pingerInfo) Stop()`: close the stop channel unless it is already closed. -/
def pingerInfo.Stop (p : pingerInfo) : pingerInfo :=
  if p.stopChClosed then p else { p with stopChClosed := true }

/-- Go: `ping.Pinger` of the go-ping library: its packet counters (Go `int`s that hold counts)
and whether its `Stop` was called. -/
structure Pinger where
  PacketsSent : Nat
  PacketsRecv : Nat
  stopped : Bool
deriving DecidableEq, Repr

/-- Go: `pinger.Stop()` of the go-ping library. -/
def Pinger.Stop (pinger : Pinger) : Pinger :=
  { pinger with stopped := true }

/-- Go: the conversion `int(u)` of a `uint` on a 64-bit platform: the 64 bits of `u` read in
two's complement. -/
def intOfUint (u : Nat) : Int :=
  if u % 2 ^ 64 < 2 ^ 63 then ((u % 2 ^ 64 : Nat) : Int)
  else ((u % 2 ^ 64 : Nat) : Int) - 2 ^ 64

/-- Go: the hook `pinger.OnSend` installed by `doPing` (lines 145-163). -/
def OnSend (p : pingerInfo) (pinger : Pinger) : pingerInfo × Pinger :=
  if p.stopChClosed then
    (p, pinger.Stop)
  else if (pinger.PacketsSent : Int) - (pinger.PacketsRecv : Int) >
      intOfUint p.maxPacketLossCount then
    -- Pinger will mark a connection as an error if the packet loss reaches the threshold
    ({ p with
        connectionStatus := ConnectionStatus.ConnectionError
        failureMsg := "Failed to successfully ping the remote endpoint IP " ++ goQuote p.ip },
      pinger.Stop)
  else
    (p, pinger)

/-- Go: the hook `pinger.OnRecv` installed by `doPing` (lines 165-175); `rtt` is
`packet.Rtt.Nanoseconds()`. -/
def OnRecv (p : pingerInfo) (pinger : Pinger) (rtt : Nat) : pingerInfo × Pinger :=
  ({ p with
      connectionStatus := ConnectionStatus.Connected
      failureMsg := ""
      statistics := p.statistics.update rtt },
    { pinger with PacketsSent := 0, PacketsRecv := 0 })

/-- One thing that happens while `pinger.Run()` is running. The go-ping library, which is
outside the repository, calls the hook `OnSend` (its counters having the given values) or the
hook `OnRecv` (with the round-trip time of the reply); or the owner of the `pingerInfo` calls
`Stop`. -/
inductive ProbeEvent
  | send (PacketsSent PacketsRecv : Nat)
  | recv (rtt : Nat)
  | stop
deriving DecidableEq, Repr

/-- The effect of one event on the `pingerInfo` and on the go-ping pinger of the run. -/
def probeStep (p : pingerInfo) (pinger : Pinger) : ProbeEvent → pingerInfo × Pinger
  | ProbeEvent.send sent recv =>
    OnSend p { pinger with PacketsSent := sent, PacketsRecv := recv }
  | ProbeEvent.recv rtt => OnRecv p pinger rtt
  | ProbeEvent.stop => (p.Stop, pinger)

/-- The events of one `pinger.Run()`, in the order in which they happen. Which hook calls the
library makes, and when it returns, is not decided here: the list is an input, and every list
is allowed. -/
def runEvents : pingerInfo → Pinger → List ProbeEvent → pingerInfo × Pinger
  | p, pinger, [] => (p, pinger)
  | p, pinger, ev :: evs => runEvents (probeStep p pinger ev).1 (probeStep p pinger ev).2 evs

/-- The environment of one call of `doPing`: the error of `ping.NewPinger`, the events that
happen while `pinger.Run()` is running, and the error `pinger.Run()` returns in the end. -/
structure ProbeRun where
  newPingerErr : Option String
  events : List ProbeEvent
  runErr : Option String
deriving DecidableEq, Repr

/-- Go: `func (p *pingerInfo) doPing() error`. What the go-ping library does during the call
is the input `run`: the hooks installed on the new pinger are applied to the events of
`pinger.Run()`, and the error of `Run` is handled after them. -/
def doPing (p : pingerInfo) (run : ProbeRun) : pingerInfo × Option String :=
  match run.newPingerErr with
  | some err =>
    ({ p with
        connectionStatus := ConnectionStatus.ConnectionUnknown
        failureMsg := "Failed to create the pinger for the remote endpoint IP " ++
          goQuote p.ip ++ ": " ++ err },
      some ("error creating the pinger: " ++ err))
  | none =>
    let p1 := (runEvents p { PacketsSent := 0, PacketsRecv := 0, stopped := false }
      run.events).1
    match run.runErr with
    | some err =>
      ({ p1 with
          connectionStatus := ConnectionStatus.ConnectionUnknown
          failureMsg := "Failed to run the pinger for the remote endpoint IP " ++
            goQuote p1.ip ++ ": " ++ err },
        some ("error running the pinger: " ++ err))
    | none => (p1, none)

/-- Go: the goroutine of `func (p *pingerInfo) Start()`, over the successive calls of
`doPing`: each iteration returns if the stop channel is closed, and otherwise calls `doPing`
and returns if it fails. -/
def Start : pingerInfo → List ProbeRun → pingerInfo
  | p, [] => p
  | p, run :: runs =>
    if p.stopChClosed then
      p
    else
      match doPing p run with
      | (p1, some _) => p1
      | (p1, none) => Start p1 runs

/-- A pinger for `127.0.0.1` with the given loss threshold, the default interval and timeout,
no sample yet and the status Unknown. -/
def examplePinger (maxPacketLossCount : Nat) : pingerInfo :=
  { ip := "127.0.0.1"
    pingInterval := 1000000000
    pingTimeout := 315360000000000000
    maxPacketLossCount := maxPacketLossCount
    statistics := { size := 1000, previousRtts := [] }
    failureMsg := ""
    connectionStatus := ConnectionStatus.ConnectionUnknown
    stopChClosed := false }

end healthchecker

end Submariner

namespace Submariner

set_option maxRecDepth 100000

/-! ## Auxiliary lemmas -/

theorem getTargetSNATIPaddress_isSome (ips : List String) (h : ips ≠ []) :
    ∃ snatIP, getTargetSNATIPaddress ips = some snatIP := by
  cases ips with
  | nil => exact absurd rfl h
  | cons a t =>
    by_cases h1 : t = []
    · subst h1
      exact ⟨a, by simp [getTargetSNATIPaddress]⟩
    · have hlen : (a :: t).length ≠ 1 := by
        simp [h1]
      have hlast : (a :: t)[(a :: t).length - 1]? = some ((a :: t).getLast h) := by
        rw [List.getLast_eq_getElem]
        exact List.getElem?_eq_getElem _
      refine ⟨a ++ "-" ++ (a :: t).getLast h, ?_⟩
      simp only [getTargetSNATIPaddress, hlen, if_false, hlast]
      simp

theorem tryAppend_extends (old : List Condition) (cond : Condition) :
    old <+: tryAppendStatusCondition old cond := by
  unfold tryAppendStatusCondition TryAppendCondition
  split <;> rename_i h
  · exact List.prefix_refl _
  · split at h
    · split at h
      · cases h
      · cases h
        exact List.prefix_append _ _
    · cases h
      exact List.prefix_append _ _

theorem tryAppend_cases (old : List Condition) (cond : Condition) :
    (tryAppendStatusCondition old cond = old ++ [cond] ∨
      tryAppendStatusCondition old cond = old) ∧
    lastOfType (tryAppendStatusCondition old cond) cond.type = some cond := by
  unfold tryAppendStatusCondition TryAppendCondition lastOfType
  cases hl : (old.filter (fun c => c.type = cond.type)).getLast? with
  | none =>
    simp [List.filter_append]
  | some last =>
    by_cases heq : last.status = cond.status ∧ last.reason = cond.reason ∧
        last.message = cond.message
    · have hmem : last ∈ old.filter (fun c => c.type = cond.type) :=
        List.mem_of_getLast?_eq_some hl
      have hty : last.type = cond.type := by
        simpa using (List.mem_filter.mp hmem).2
      have hlc : last = cond := by
        cases last
        cases cond
        simp_all
      simp [heq, hl, hlc]
    · simp [heq, List.filter_append]

theorem tryAppend_exact (old : List Condition) (cond : Condition) :
    (lastOfType old cond.type = some cond → tryAppendStatusCondition old cond = old) ∧
    (lastOfType old cond.type ≠ some cond →
      tryAppendStatusCondition old cond = old ++ [cond]) := by
  unfold tryAppendStatusCondition TryAppendCondition lastOfType
  cases hl : (old.filter (fun c => c.type = cond.type)).getLast? with
  | none => simp
  | some last =>
    by_cases heq : last.status = cond.status ∧ last.reason = cond.reason ∧
        last.message = cond.message
    · have hmem : last ∈ old.filter (fun c => c.type = cond.type) :=
        List.mem_of_getLast?_eq_some hl
      have hty : last.type = cond.type := by
        simpa using (List.mem_filter.mp hmem).2
      have hlc : last = cond := by
        cases last
        cases cond
        simp_all
      simp [heq, hlc]
    · have hne : last ≠ cond := by
        intro h
        rw [h] at heq
        exact heq ⟨rfl, rfl, rfl⟩
      simp [heq, hne]

/-! ### Pool -/

theorem IPPool.free_mem (p : IPPool) (ip : String) (h : ip ∈ p.free) :
    ip ∈ p.range ∧ ip ∉ p.reserved := by
  unfold IPPool.free at h
  rw [List.mem_filter] at h
  exact ⟨List.mem_dedup.mp h.1, by simpa using h.2⟩

theorem IPPool.Allocate_some (p : IPPool) (num : Int) (ips : List String) (p1 : IPPool)
    (h : p.Allocate num = some (ips, p1)) :
    ips.length = num.toNat ∧ p1 = { p with reserved := p.reserved ∪ ips.toFinset } ∧
      (∀ ip ∈ ips, ip ∈ p.range ∧ ip ∉ p.reserved) := by
  unfold IPPool.Allocate at h
  split at h
  · cases h
  · rename_i hlen
    simp only [Option.some.injEq, Prod.mk.injEq] at h
    obtain ⟨h1, h2⟩ := h
    subst h1
    refine ⟨?_, h2.symm, ?_⟩
    · rw [List.length_take]
      omega
    · intro ip hip
      exact IPPool.free_mem p ip (List.mem_of_mem_take hip)

theorem IPPool.Release_Allocate (p : IPPool) (num : Int) (ips : List String) (p1 : IPPool)
    (h : p.Allocate num = some (ips, p1)) :
    p1.Release ips = (p, none) := by
  obtain ⟨_, hp1, hmem⟩ := IPPool.Allocate_some p num ips p1 h
  subst hp1
  have hall : (ips.all fun ip => decide (ip ∈ p.range)) = true := by
    rw [List.all_eq_true]
    intro ip hip
    simpa using (hmem ip hip).1
  have hdisj : Disjoint p.reserved ips.toFinset := by
    rw [Finset.disjoint_left]
    intro ip hr hi
    exact (hmem ip (List.mem_toFinset.mp hi)).2 hr
  unfold IPPool.Release
  simp only [hall, if_true, Finset.union_sdiff_cancel_right hdisj]

/-! ### Controller bookkeeping -/

@[simp] theorem Controller.log_trace (c : Controller) (ev : Event) :
    (c.log ev).trace = c.trace ++ [ev] := rfl

@[simp] theorem Controller.log_pool (c : Controller) (ev : Event) :
    (c.log ev).pool = c.pool := rfl

@[simp] theorem Controller.log_podWatchers (c : Controller) (ev : Event) :
    (c.log ev).podWatchers = c.podWatchers := rfl

@[simp] theorem Controller.release_trace (c : Controller) (ips : List String) :
    (c.release ips).trace = c.trace ++ [⟨Call.poolRelease ips, (c.pool.Release ips).2⟩] := rfl

@[simp] theorem Controller.release_pool (c : Controller) (ips : List String) :
    (c.release ips).pool = (c.pool.Release ips).1 := rfl

@[simp] theorem Controller.release_podWatchers (c : Controller) (ips : List String) :
    (c.release ips).podWatchers = c.podWatchers := rfl

theorem Controller.call_eq (env : Env) (c : Controller) (call : Call) :
    c.call env call =
      (c.log ⟨call, env.driver c.trace.length call⟩, env.driver c.trace.length call) := rfl

theorem Steps.refl (P : Event → Prop) (c : Controller) : Steps P c c :=
  ⟨[], by simp, fun _ h => by cases h⟩

theorem Steps.trans {P : Event → Prop} {c c1 c2 : Controller} (h1 : Steps P c c1)
    (h2 : Steps P c1 c2) : Steps P c c2 := by
  obtain ⟨e1, ht1, hq1⟩ := h1
  obtain ⟨e2, ht2, hq2⟩ := h2
  refine ⟨e1 ++ e2, by rw [ht2, ht1, List.append_assoc], ?_⟩
  intro ev hev
  rcases List.mem_append.mp hev with h | h
  · exact hq1 ev h
  · exact hq2 ev h

theorem Steps.mono {P Q : Event → Prop} {c c2 : Controller} (h : Steps P c c2)
    (hPQ : ∀ ev, P ev → Q ev) : Steps Q c c2 := by
  obtain ⟨evs, ht, hq⟩ := h
  exact ⟨evs, ht, fun ev hev => hPQ ev (hq ev hev)⟩

theorem Steps.log {P : Event → Prop} (c : Controller) (ev : Event) (h : P ev) :
    Steps P c (c.log ev) :=
  ⟨[ev], rfl, fun e he => by
    rw [List.mem_singleton] at he
    subst he
    exact h⟩

theorem Steps.release {P : Event → Prop} (c : Controller) (ips : List String)
    (h : P ⟨Call.poolRelease ips, (c.pool.Release ips).2⟩) : Steps P c (c.release ips) :=
  ⟨[⟨Call.poolRelease ips, (c.pool.Release ips).2⟩], rfl, fun e he => by
    rw [List.mem_singleton] at he
    subst he
    exact h⟩

theorem Steps.setPool {P : Event → Prop} (c : Controller) (p : IPPool) :
    Steps P c { c with pool := p } :=
  ⟨[], by simp, fun _ h => by cases h⟩

theorem Steps.mem_newCalls {P : Event → Prop} {c c2 : Controller} (h : Steps P c c2)
    (ev : Event) (hev : ev ∈ newCalls c c2) : P ev := by
  obtain ⟨evs, ht, hq⟩ := h
  unfold newCalls at hev
  rw [ht, List.drop_left] at hev
  exact hq ev hev

theorem Quiet.same (c : Controller) : Quiet c c := Steps.refl _ c

theorem Quiet.andThen {c c1 c2 : Controller} (h1 : Quiet c c1) (h2 : Quiet c1 c2) : Quiet c c2 :=
  Steps.trans h1 h2

theorem Quiet.logged (c : Controller) (ev : Event) (h : ev.quiet) : Quiet c (c.log ev) :=
  Steps.log c ev h

theorem Quiet.released (c : Controller) (ips : List String) : Quiet c (c.release ips) :=
  Steps.release c ips (by refine ⟨?_, ?_, ?_⟩ <;> simp)

theorem Quiet.steps {P : Event → Prop} {c c2 : Controller} (h : Quiet c c2)
    (hP : ∀ ev, ev.quiet → P ev) : Steps P c c2 :=
  Steps.mono h hP

/-! ### Stages of the reconcile -/

@[simp] theorem appendCondition_Spec (g : GlobalEgressIP) (cond : Condition) :
    (g.appendCondition cond).Spec = g.Spec := rfl

@[simp] theorem appendCondition_Namespace (g : GlobalEgressIP) (cond : Condition) :
    (g.appendCondition cond).Namespace = g.Namespace := rfl

@[simp] theorem appendCondition_Name (g : GlobalEgressIP) (cond : Condition) :
    (g.appendCondition cond).Name = g.Name := rfl

@[simp] theorem appendCondition_AllocatedIPs (g : GlobalEgressIP) (cond : Condition) :
    (g.appendCondition cond).Status.AllocatedIPs = g.Status.AllocatedIPs := rfl

@[simp] theorem appendCondition_Conditions (g : GlobalEgressIP) (cond : Condition) :
    (g.appendCondition cond).Status.Conditions =
      tryAppendStatusCondition g.Status.Conditions cond := rfl

@[simp] theorem setAllocatedIPs_Spec (g : GlobalEgressIP) (ips : List String) :
    (g.setAllocatedIPs ips).Spec = g.Spec := rfl

@[simp] theorem setAllocatedIPs_Namespace (g : GlobalEgressIP) (ips : List String) :
    (g.setAllocatedIPs ips).Namespace = g.Namespace := rfl

@[simp] theorem setAllocatedIPs_Name (g : GlobalEgressIP) (ips : List String) :
    (g.setAllocatedIPs ips).Name = g.Name := rfl

@[simp] theorem setAllocatedIPs_AllocatedIPs (g : GlobalEgressIP) (ips : List String) :
    (g.setAllocatedIPs ips).Status.AllocatedIPs = ips := rfl

@[simp] theorem setAllocatedIPs_Conditions (g : GlobalEgressIP) (ips : List String) :
    (g.setAllocatedIPs ips).Status.Conditions = g.Status.Conditions := rfl

theorem validate_neg (n : Int) (g : GlobalEgressIP) (h : n < 0) :
    validate n g = (false, g.appendCondition condInvalidInput) := by
  simp [validate, h]

theorem validate_pos (n : Int) (g : GlobalEgressIP) (h : 1 ≤ n) :
    validate n g = (true, g) := by
  have h1 : ¬ n < 0 := by omega
  have h2 : ¬ n = 0 := by omega
  simp [validate, h1, h2]

theorem process_createOrUpdate_pos (env : Env) (c : Controller) (g : GlobalEgressIP)
    (nr : Int) (op : Operation) (hop : op ≠ Operation.Delete) (hn : 1 ≤ specNumberOfIPs g) :
    process env c g nr op =
      (onCreateOrUpdate env c (MetaNamespaceKeyFunc g) (specNumberOfIPs g) g nr).map
        (fun x => { out := checkStatusChanged g.Status x.2.1.Status x.2.1, requeue := x.2.2,
                    obj := x.2.1, ctl := x.1 }) := by
  cases op with
  | Delete => exact absurd rfl hop
  | Create =>
    simp only [process, validate_pos _ _ hn, if_true]
    cases onCreateOrUpdate env c (MetaNamespaceKeyFunc g) (specNumberOfIPs g) g nr <;> rfl
  | Update =>
    simp only [process, validate_pos _ _ hn, if_true]
    cases onCreateOrUpdate env c (MetaNamespaceKeyFunc g) (specNumberOfIPs g) g nr <;> rfl

theorem flush_spec (env : Env) (c : Controller) (key name : String) (nr : Int)
    (g : GlobalEgressIP) :
    ∃ c2 rq, flushGlobalEgressRulesAndReleaseIPs env c key name nr g = some (c2, rq) ∧
      Quiet c c2 ∧ c2.podWatchers = c.podWatchers := by
  unfold flushGlobalEgressRulesAndReleaseIPs flushRulesAndReleaseIPs
  by_cases hl : g.Status.AllocatedIPs = []
  · exact ⟨c, false, by simp [hl], Quiet.same c, rfl⟩
  · have hlen : g.Status.AllocatedIPs.length ≠ 0 := by
      simpa using hl
    obtain ⟨snat, hs⟩ := getTargetSNATIPaddress_isSome _ hl
    simp only [hlen, if_false, hs, Controller.call_eq]
    have hq : ∀ err, Quiet c (c.log ⟨Call.RemoveEgressRules
        (egressRule env g.Spec.PodSelector key name snat), err⟩) := fun err =>
      Quiet.logged c _ (by refine ⟨?_, ?_, ?_⟩ <;> simp)
    split
    · exact ⟨_, true, rfl, hq _, rfl⟩
    · exact ⟨_, false, rfl, (hq _).andThen (Quiet.released _ _), rfl⟩

theorem createPodWatcher_found (env : Env) (c : Controller) (key : String) (g : GlobalEgressIP)
    (prev : PodWatcher) (hl : c.podWatchers.lookup key = some prev) :
    createPodWatcher env c key g =
      (c, if prev.podSelector ≠ g.Spec.PodSelector then
            g.appendCondition condPodSelectorUpdateNotSupported else g,
        some prev.namedIPSet) := by
  unfold createPodWatcher
  rw [hl]

theorem createPodWatcher_missing (env : Env) (c : Controller) (key : String) (g : GlobalEgressIP)
    (hl : c.podWatchers.lookup key = none) :
    createPodWatcher env c key g =
      match env.driver c.trace.length (Call.startPodWatcher key g.Namespace
          (newNamedIPSet env key).Name g.Spec.PodSelector) with
      | some e => (c.log ⟨Call.startPodWatcher key g.Namespace
          (newNamedIPSet env key).Name g.Spec.PodSelector, some e⟩, g, none)
      | none =>
        ({ c.log ⟨Call.startPodWatcher key g.Namespace
              (newNamedIPSet env key).Name g.Spec.PodSelector, none⟩ with
            podWatchers := (key, { podSelector := g.Spec.PodSelector
                                   namedIPSet := newNamedIPSet env key
                                   stopChClosed := false }) :: c.podWatchers },
          g, some (newNamedIPSet env key)) := by
  unfold createPodWatcher
  rw [hl]
  simp only [Controller.call_eq]
  cases env.driver c.trace.length (Call.startPodWatcher key g.Namespace
      (newNamedIPSet env key).Name g.Spec.PodSelector) <;> rfl

theorem createPodWatcher_spec (env : Env) (c : Controller) (key : String) (g : GlobalEgressIP) :
    ∃ c1 g1 onis, createPodWatcher env c key g = (c1, g1, onis) ∧ Quiet c c1 ∧
      c1.pool = c.pool ∧ g1.Spec = g.Spec ∧ g1.Namespace = g.Namespace ∧ g1.Name = g.Name ∧
      g1.Status.AllocatedIPs = g.Status.AllocatedIPs ∧
      g.Status.Conditions <+: g1.Status.Conditions ∧
      (∀ nis, onis = some nis → ∃ pw, c1.podWatchers.lookup key = some pw ∧
        ((∀ pw0, c.podWatchers.lookup key = some pw0 →
            pw0.podSelector = g.Spec.PodSelector) →
          pw.podSelector = g.Spec.PodSelector ∧ g1 = g)) := by
  cases hl : c.podWatchers.lookup key with
  | some prev =>
    refine ⟨_, _, _, createPodWatcher_found env c key g prev hl, Quiet.same c, rfl, ?_⟩
    by_cases hsel : prev.podSelector = g.Spec.PodSelector
    · rw [if_neg (not_not.mpr hsel)]
      refine ⟨rfl, rfl, rfl, rfl, List.prefix_refl _, ?_⟩
      intro nis _
      exact ⟨prev, hl, fun _ => ⟨hsel, rfl⟩⟩
    · rw [if_pos hsel]
      refine ⟨rfl, rfl, rfl, rfl, tryAppend_extends _ _, ?_⟩
      intro nis _
      exact ⟨prev, hl, fun h => absurd (h prev rfl) hsel⟩
  | none =>
    have hq : ∀ err, Quiet c (c.log ⟨Call.startPodWatcher key g.Namespace
        (newNamedIPSet env key).Name g.Spec.PodSelector, err⟩) := fun err =>
      Quiet.logged c _ (by refine ⟨?_, ?_, ?_⟩ <;> simp)
    have hm := createPodWatcher_missing env c key g hl
    cases hd : env.driver c.trace.length (Call.startPodWatcher key g.Namespace
        (newNamedIPSet env key).Name g.Spec.PodSelector) with
    | some e =>
      rw [hd] at hm
      refine ⟨_, _, _, hm, hq _, rfl, rfl, rfl, rfl, rfl, List.prefix_refl _, ?_⟩
      intro nis h
      cases h
    | none =>
      rw [hd] at hm
      refine ⟨_, _, _, hm, ?_, rfl, rfl, rfl, rfl, rfl, List.prefix_refl _, ?_⟩
      · obtain ⟨evs, h1, h2⟩ := hq none
        exact ⟨evs, h1, h2⟩
      · intro nis _
        refine ⟨{ podSelector := g.Spec.PodSelector
                  namedIPSet := newNamedIPSet env key
                  stopChClosed := false }, ?_, fun _ => ⟨rfl, rfl⟩⟩
        simp [List.lookup]

theorem programGlobalEgressRules_spec (env : Env) (c : Controller) (key : String)
    (ips : List String) (sel : Option LabelSelector) (nis : NamedIPSet) (hips : ips ≠ []) :
    ∃ snat, getTargetSNATIPaddress ips = some snat ∧
      ((∃ e, programGlobalEgressRules env c key ips sel nis =
          some (c.log ⟨Call.ipSetCreate nis.Name true, some e⟩,
            some ("error creating the IP set chain " ++ goQuote nis.Name ++ ": " ++ e))) ∨
       (programGlobalEgressRules env c key ips sel nis =
          some ((c.log ⟨Call.ipSetCreate nis.Name true, none⟩).log
            ⟨Call.AddEgressRules (egressRule env sel key (getIPSetName env key) snat), none⟩,
            none)) ∨
       (∃ e e2, programGlobalEgressRules env c key ips sel nis =
          some ((((c.log ⟨Call.ipSetCreate nis.Name true, none⟩).log
            ⟨Call.AddEgressRules (egressRule env sel key (getIPSetName env key) snat),
              some e⟩).log
            ⟨Call.RemoveEgressRules (egressRule env sel key (getIPSetName env key) snat), e2⟩),
            some e))) := by
  obtain ⟨snat, hs⟩ := getTargetSNATIPaddress_isSome ips hips
  refine ⟨snat, hs, ?_⟩
  unfold programGlobalEgressRules
  simp only [Controller.call_eq, hs]
  cases hd : env.driver c.trace.length (Call.ipSetCreate nis.Name true) with
  | some e => exact Or.inl ⟨e, rfl⟩
  | none =>
    simp only []
    generalize hd2 : env.driver _ (Call.AddEgressRules _) = r2
    cases r2 with
    | some e => exact Or.inr (Or.inr ⟨e, _, rfl⟩)
    | none => exact Or.inr (Or.inl rfl)

theorem allocateGlobalIPs_spec (env : Env) (c : Controller) (key : String) (n : Int)
    (g : GlobalEgressIP) (nis : NamedIPSet) (hn : 1 ≤ n) :
    (c.pool.Allocate n = none ∧
      allocateGlobalIPs env c key n g nis =
        some (c.log ⟨Call.poolAllocate n, some "Exhausted"⟩,
          (g.setAllocatedIPs []).appendCondition (condIPPoolAllocationFailed n "Exhausted"),
          true)) ∨
    (∃ ips p1 snat, c.pool.Allocate n = some (ips, p1) ∧ ips.length = n.toNat ∧
      getTargetSNATIPaddress ips = some snat ∧
      ((∃ e, allocateGlobalIPs env c key n g nis =
          some (((({ c with pool := p1 } : Controller).log ⟨Call.poolAllocate n, none⟩).log
              ⟨Call.ipSetCreate nis.Name true, some e⟩).release ips,
            (g.setAllocatedIPs []).appendCondition (condProgramIPTableRulesFailed
              ("error creating the IP set chain " ++ goQuote nis.Name ++ ": " ++ e)),
            true)) ∨
       (allocateGlobalIPs env c key n g nis =
          some (((({ c with pool := p1 } : Controller).log ⟨Call.poolAllocate n, none⟩).log
              ⟨Call.ipSetCreate nis.Name true, none⟩).log
              ⟨Call.AddEgressRules
                (egressRule env g.Spec.PodSelector key (getIPSetName env key) snat), none⟩,
            ((g.setAllocatedIPs []).appendCondition (condSuccess n)).setAllocatedIPs ips,
            false)) ∨
       (∃ e e2, allocateGlobalIPs env c key n g nis =
          some (((((({ c with pool := p1 } : Controller).log ⟨Call.poolAllocate n, none⟩).log
              ⟨Call.ipSetCreate nis.Name true, none⟩).log
              ⟨Call.AddEgressRules
                (egressRule env g.Spec.PodSelector key (getIPSetName env key) snat),
                some e⟩).log
              ⟨Call.RemoveEgressRules
                (egressRule env g.Spec.PodSelector key (getIPSetName env key) snat),
                e2⟩).release ips,
            (g.setAllocatedIPs []).appendCondition (condProgramIPTableRulesFailed e),
            true)))) := by
  have hn0 : ¬ n = 0 := by omega
  unfold allocateGlobalIPs
  simp only [hn0, if_false]
  cases ha : c.pool.Allocate n with
  | none => exact Or.inl ⟨rfl, rfl⟩
  | some res =>
    obtain ⟨ips, p1⟩ := res
    obtain ⟨hlen, _, _⟩ := IPPool.Allocate_some c.pool n ips p1 ha
    have hips : ips ≠ [] := by
      intro h
      rw [h] at hlen
      simp only [List.length_nil] at hlen
      omega
    obtain ⟨snat, hs, hp⟩ := programGlobalEgressRules_spec env
      (({ c with pool := p1 } : Controller).log ⟨Call.poolAllocate n, none⟩) key ips
      (g.setAllocatedIPs []).Spec.PodSelector nis hips
    refine Or.inr ⟨ips, p1, snat, rfl, hlen, hs, ?_⟩
    simp only []
    rcases hp with ⟨e, hp⟩ | hp | ⟨e, e2, hp⟩
    · rw [hp]
      exact Or.inl ⟨e, rfl⟩
    · rw [hp]
      exact Or.inr (Or.inl rfl)
    · rw [hp]
      exact Or.inr (Or.inr ⟨e, e2, rfl⟩)

theorem onCreateOrUpdate_spec (env : Env) (c : Controller) (key : String) (n : Int)
    (g : GlobalEgressIP) (nr : Int) :
    ∃ c1 g1 onis, createPodWatcher env c key g = (c1, g1, onis) ∧
      ((onis = none ∧ onCreateOrUpdate env c key n g nr = some (c1, g1, true)) ∨
       (∃ nis, onis = some nis ∧
         ((n = (g1.Status.AllocatedIPs.length : Int) ∧
            onCreateOrUpdate env c key n g nr = some (c1, g1, false)) ∨
          (n ≠ (g1.Status.AllocatedIPs.length : Int) ∧
            ∃ c2 rq, flushGlobalEgressRulesAndReleaseIPs env c1 key nis.Name nr g1 =
                some (c2, rq) ∧ Quiet c1 c2 ∧ c2.podWatchers = c1.podWatchers ∧
              ((rq = true ∧ onCreateOrUpdate env c key n g nr = some (c2, g1, true)) ∨
               (rq = false ∧ onCreateOrUpdate env c key n g nr =
                  allocateGlobalIPs env c2 key n g1 nis)))))) := by
  unfold onCreateOrUpdate
  rcases hc : createPodWatcher env c key g with ⟨c1, g1, onis⟩
  refine ⟨c1, g1, onis, rfl, ?_⟩
  cases onis with
  | none => exact Or.inl ⟨rfl, rfl⟩
  | some nis =>
    refine Or.inr ⟨nis, rfl, ?_⟩
    simp only []
    by_cases hlen : n = (g1.Status.AllocatedIPs.length : Int)
    · exact Or.inl ⟨hlen, by rw [if_pos hlen]⟩
    · refine Or.inr ⟨hlen, ?_⟩
      rw [if_neg hlen]
      obtain ⟨c2, rq, hf, hq, hpw⟩ := flush_spec env c1 key nis.Name nr g1
      refine ⟨c2, rq, hf, hq, hpw, ?_⟩
      rw [hf]
      cases rq with
      | true => exact Or.inl ⟨rfl, rfl⟩
      | false => exact Or.inr ⟨rfl, rfl⟩

/-- The facts about `createPodWatcher` together with the case analysis of
`onCreateOrUpdate`. -/
theorem onCreateOrUpdate_cases (env : Env) (c : Controller) (key : String) (n : Int)
    (g : GlobalEgressIP) (nr : Int) :
    ∃ c1 g1, Quiet c c1 ∧ c1.pool = c.pool ∧ g1.Spec = g.Spec ∧
      g1.Namespace = g.Namespace ∧ g1.Name = g.Name ∧
      g1.Status.AllocatedIPs = g.Status.AllocatedIPs ∧
      g.Status.Conditions <+: g1.Status.Conditions ∧
      ((createPodWatcher env c key g = (c1, g1, none) ∧
          onCreateOrUpdate env c key n g nr = some (c1, g1, true)) ∨
       (∃ nis pw, createPodWatcher env c key g = (c1, g1, some nis) ∧
         c1.podWatchers.lookup key = some pw ∧
         ((∀ pw0, c.podWatchers.lookup key = some pw0 →
            pw0.podSelector = g.Spec.PodSelector) →
          pw.podSelector = g.Spec.PodSelector ∧ g1 = g) ∧
         ((n = (g1.Status.AllocatedIPs.length : Int) ∧
            onCreateOrUpdate env c key n g nr = some (c1, g1, false)) ∨
          (n ≠ (g1.Status.AllocatedIPs.length : Int) ∧
            ∃ c2 rq, flushGlobalEgressRulesAndReleaseIPs env c1 key nis.Name nr g1 =
                some (c2, rq) ∧ Quiet c1 c2 ∧ c2.podWatchers = c1.podWatchers ∧
              ((rq = true ∧ onCreateOrUpdate env c key n g nr = some (c2, g1, true)) ∨
               (rq = false ∧ onCreateOrUpdate env c key n g nr =
                  allocateGlobalIPs env c2 key n g1 nis)))))) := by
  obtain ⟨c1, g1, onis, hc, hq, hpool, hspec, hns, hname, hips, hpre, hpw⟩ :=
    createPodWatcher_spec env c key g
  obtain ⟨c1', g1', onis', hc', hcases⟩ := onCreateOrUpdate_spec env c key n g nr
  rw [hc] at hc'
  simp only [Prod.mk.injEq] at hc'
  obtain ⟨h1, h2, h3⟩ := hc'
  subst h1 h2 h3
  refine ⟨c1, g1, hq, hpool, hspec, hns, hname, hips, hpre, ?_⟩
  rcases hcases with ⟨hnone, hres⟩ | ⟨nis, hsome, hrest⟩
  · subst hnone
    exact Or.inl ⟨hc, hres⟩
  · subst hsome
    obtain ⟨pw, hl, hsel⟩ := hpw nis rfl
    exact Or.inr ⟨nis, pw, hc, hl, hsel, hrest⟩

/-- An event that is not a failed pool allocation. -/
theorem notFailedAllocate_of_quiet (ev : Event) (h : ev.quiet) :
    (∃ m, ev.call = Call.poolAllocate m) → ev.err = none :=
  fun ⟨m, hm⟩ => absurd hm (h.1 m)

/-- A failed `pool.Allocate` during `onCreateOrUpdate`. -/
theorem onCreateOrUpdate_allocate_failed (env : Env) (c : Controller) (key : String) (n : Int)
    (g : GlobalEgressIP) (nr : Int) (hn : 1 ≤ n) :
    ∃ c2 g2 rq, onCreateOrUpdate env c key n g nr = some (c2, g2, rq) ∧
      ((∃ ev ∈ newCalls c c2, (∃ m, ev.call = Call.poolAllocate m) ∧ ev.err ≠ none) →
        rq = true ∧ g2.Status.AllocatedIPs = [] ∧
        g.Status.Conditions <+: g2.Status.Conditions ∧
        lastOfType g2.Status.Conditions GlobalEgressIPAllocated =
          some (condIPPoolAllocationFailed n "Exhausted")) := by
  obtain ⟨c1, g1, hq1, _, _, _, _, _, hpre, hcases⟩ := onCreateOrUpdate_cases env c key n g nr
  have noFail : ∀ (c2 : Controller) (P : Prop),
      Steps (fun ev => (∃ m, ev.call = Call.poolAllocate m) → ev.err = none) c c2 →
      (∃ ev ∈ newCalls c c2, (∃ m, ev.call = Call.poolAllocate m) ∧ ev.err ≠ none) → P := by
    intro c2 P hs ⟨ev, hev, hm, herr⟩
    exact absurd (hs.mem_newCalls ev hev hm) herr
  rcases hcases with ⟨_, hres⟩ | ⟨nis, pw, _, _, _, hrest⟩
  · exact ⟨c1, g1, true, hres, noFail c1 _ (hq1.steps notFailedAllocate_of_quiet)⟩
  · rcases hrest with ⟨_, hres⟩ | ⟨_, c2, rq, _, hq2, _, hrq⟩
    · exact ⟨c1, g1, false, hres, noFail c1 _ (hq1.steps notFailedAllocate_of_quiet)⟩
    · have hq := (hq1.andThen hq2).steps notFailedAllocate_of_quiet
      rcases hrq with ⟨_, hres⟩ | ⟨_, hres⟩
      · exact ⟨c2, g1, true, hres, noFail c2 _ hq⟩
      · rcases allocateGlobalIPs_spec env c2 key n g1 nis hn with
          ⟨_, ha⟩ | ⟨ips, p1, snat, _, _, _, ha⟩
        · refine ⟨_, _, _, hres.trans ha, fun _ => ⟨rfl, rfl, ?_, ?_⟩⟩
          · exact hpre.trans (tryAppend_extends _ _)
          · exact (tryAppend_cases _ _).2
        · have h0 := (hq.trans (Steps.setPool c2 p1)).trans
            (Steps.log _ ⟨Call.poolAllocate n, none⟩ (fun _ => rfl))
          rcases ha with ⟨e, ha⟩ | ha | ⟨e, e2, ha⟩
          · refine ⟨_, _, _, hres.trans ha, noFail _ _ ?_⟩
            refine ((h0.trans (Steps.log _ _ ?_)).trans (Steps.release _ _ ?_))
            · rintro ⟨m, hm⟩
              cases hm
            · rintro ⟨m, hm⟩
              cases hm
          · refine ⟨_, _, _, hres.trans ha, noFail _ _ ?_⟩
            refine ((h0.trans (Steps.log _ _ ?_)).trans (Steps.log _ _ ?_))
            · rintro ⟨m, hm⟩
              cases hm
            · rintro ⟨m, hm⟩
              cases hm
          · refine ⟨_, _, _, hres.trans ha, noFail _ _ ?_⟩
            refine ((((h0.trans (Steps.log _ _ ?_)).trans (Steps.log _ _ ?_)).trans
              (Steps.log _ _ ?_)).trans (Steps.release _ _ ?_))
            · rintro ⟨m, hm⟩
              cases hm
            · rintro ⟨m, hm⟩
              cases hm
            · rintro ⟨m, hm⟩
              cases hm
            · rintro ⟨m, hm⟩
              cases hm

/-- A failed `pool.Allocate` during `onCreateOrUpdate`, with the object it leaves. -/
theorem onCreateOrUpdate_allocate_failed_object (env : Env) (c : Controller) (key : String)
    (n : Int) (g : GlobalEgressIP) (nr : Int) (hn : 1 ≤ n) :
    ∃ c2 g2 rq, onCreateOrUpdate env c key n g nr = some (c2, g2, rq) ∧
      ((∃ ev ∈ newCalls c c2, (∃ m, ev.call = Call.poolAllocate m) ∧ ev.err ≠ none) →
        rq = true ∧
        g2 = ((createPodWatcher env c key g).2.1.setAllocatedIPs []).appendCondition
          (condIPPoolAllocationFailed n "Exhausted") ∧
        g.Status.Conditions <+: (createPodWatcher env c key g).2.1.Status.Conditions ∧
        ((∀ pw0, c.podWatchers.lookup key = some pw0 →
            pw0.podSelector = g.Spec.PodSelector) →
          (createPodWatcher env c key g).2.1 = g)) := by
  obtain ⟨c1, g1, hq1, _, _, _, _, _, hpre, hcases⟩ := onCreateOrUpdate_cases env c key n g nr
  have noFail : ∀ (c2 : Controller) (P : Prop),
      Steps (fun ev => (∃ m, ev.call = Call.poolAllocate m) → ev.err = none) c c2 →
      (∃ ev ∈ newCalls c c2, (∃ m, ev.call = Call.poolAllocate m) ∧ ev.err ≠ none) → P := by
    intro c2 P hs ⟨ev, hev, hm, herr⟩
    exact absurd (hs.mem_newCalls ev hev hm) herr
  rcases hcases with ⟨_, hres⟩ | ⟨nis, pw, hc, _, hsel, hrest⟩
  · exact ⟨c1, g1, true, hres, noFail c1 _ (hq1.steps notFailedAllocate_of_quiet)⟩
  · rcases hrest with ⟨_, hres⟩ | ⟨_, c2, rq, _, hq2, _, hrq⟩
    · exact ⟨c1, g1, false, hres, noFail c1 _ (hq1.steps notFailedAllocate_of_quiet)⟩
    · have hq := (hq1.andThen hq2).steps notFailedAllocate_of_quiet
      rcases hrq with ⟨_, hres⟩ | ⟨_, hres⟩
      · exact ⟨c2, g1, true, hres, noFail c2 _ hq⟩
      · rcases allocateGlobalIPs_spec env c2 key n g1 nis hn with
          ⟨_, ha⟩ | ⟨ips, p1, snat, _, _, _, ha⟩
        · refine ⟨_, _, _, hres.trans ha, fun _ => ⟨rfl, ?_, ?_, ?_⟩⟩
          · rw [hc]
          · rw [hc]
            exact hpre
          · intro h
            rw [hc]
            exact (hsel h).2
        · have h0 := (hq.trans (Steps.setPool c2 p1)).trans
            (Steps.log _ ⟨Call.poolAllocate n, none⟩ (fun _ => rfl))
          rcases ha with ⟨e, ha⟩ | ha | ⟨e, e2, ha⟩
          · refine ⟨_, _, _, hres.trans ha, noFail _ _ ?_⟩
            refine ((h0.trans (Steps.log _ _ ?_)).trans (Steps.release _ _ ?_))
            · rintro ⟨m, hm⟩
              cases hm
            · rintro ⟨m, hm⟩
              cases hm
          · refine ⟨_, _, _, hres.trans ha, noFail _ _ ?_⟩
            refine ((h0.trans (Steps.log _ _ ?_)).trans (Steps.log _ _ ?_))
            · rintro ⟨m, hm⟩
              cases hm
            · rintro ⟨m, hm⟩
              cases hm
          · refine ⟨_, _, _, hres.trans ha, noFail _ _ ?_⟩
            refine ((((h0.trans (Steps.log _ _ ?_)).trans (Steps.log _ _ ?_)).trans
              (Steps.log _ _ ?_)).trans (Steps.release _ _ ?_))
            · rintro ⟨m, hm⟩
              cases hm
            · rintro ⟨m, hm⟩
              cases hm
            · rintro ⟨m, hm⟩
              cases hm
            · rintro ⟨m, hm⟩
              cases hm

/-- What holds after an `onCreateOrUpdate` that does not ask for a requeue. -/
theorem onCreateOrUpdate_settled (env : Env) (c : Controller) (key : String) (n : Int)
    (g : GlobalEgressIP) (nr : Int) (hn : 1 ≤ n) :
    ∃ c2 g2 rq, onCreateOrUpdate env c key n g nr = some (c2, g2, rq) ∧
      (rq = false →
        (g2.Status.AllocatedIPs.length : Int) = n ∧ g2.Spec = g.Spec ∧
        g2.Namespace = g.Namespace ∧ g2.Name = g.Name ∧
        ∃ pw, c2.podWatchers.lookup key = some pw ∧
          ((∀ pw0, c.podWatchers.lookup key = some pw0 →
              pw0.podSelector = g.Spec.PodSelector) →
            pw.podSelector = g.Spec.PodSelector)) := by
  obtain ⟨c1, g1, _, _, hspec, hns, hname, _, _, hcases⟩ :=
    onCreateOrUpdate_cases env c key n g nr
  rcases hcases with ⟨_, hres⟩ | ⟨nis, pw, _, hl, hsel, hrest⟩
  · exact ⟨c1, g1, true, hres, fun h => by cases h⟩
  · rcases hrest with ⟨hlen, hres⟩ | ⟨_, c2, rq, _, _, hpw, hrq⟩
    · exact ⟨c1, g1, false, hres, fun _ =>
        ⟨hlen.symm, hspec, hns, hname, pw, hl, fun h => (hsel h).1⟩⟩
    · rcases hrq with ⟨_, hres⟩ | ⟨_, hres⟩
      · exact ⟨c2, g1, true, hres, fun h => by cases h⟩
      · rcases allocateGlobalIPs_spec env c2 key n g1 nis hn with
          ⟨_, ha⟩ | ⟨ips, p1, snat, _, hlen, _, ha⟩
        · exact ⟨_, _, _, hres.trans ha, fun h => by cases h⟩
        · rcases ha with ⟨e, ha⟩ | ha | ⟨e, e2, ha⟩
          · exact ⟨_, _, _, hres.trans ha, fun h => by cases h⟩
          · refine ⟨_, _, _, hres.trans ha, fun _ => ⟨?_, hspec, hns, hname, pw, ?_,
              fun h => (hsel h).1⟩⟩
            · simp only [setAllocatedIPs_AllocatedIPs, hlen]
              omega
            · simpa [hpw] using hl
          · exact ⟨_, _, _, hres.trans ha, fun h => by cases h⟩

/-- A reconcile of an object whose allocation already has the requested size, for a key whose
pod watcher has the same selector, changes nothing. -/
theorem onCreateOrUpdate_steady (env : Env) (c : Controller) (key : String) (n : Int)
    (g : GlobalEgressIP) (nr : Int) (pw : PodWatcher)
    (hl : c.podWatchers.lookup key = some pw) (hsel : pw.podSelector = g.Spec.PodSelector)
    (hlen : (g.Status.AllocatedIPs.length : Int) = n) :
    onCreateOrUpdate env c key n g nr = some (c, g, false) := by
  unfold onCreateOrUpdate
  rw [createPodWatcher_found env c key g pw hl, if_neg (not_not.mpr hsel)]
  simp only [hlen.symm, if_true]

/-- An event that is neither a failed programming of egress rules nor a failed creation of an
IP set. -/
theorem notFailedProgram_of_quiet (ev : Event) (h : ev.quiet) :
    ((∃ r, ev.call = Call.AddEgressRules r) ∨ (∃ name b, ev.call = Call.ipSetCreate name b)) →
      ev.err = none := by
  rintro (⟨r, hr⟩ | ⟨name, b, hb⟩)
  · exact absurd hr (h.2.1 r)
  · exact absurd hb (h.2.2 name b)

/-- A failed `programGlobalEgressRules` during `onCreateOrUpdate`: the calls issued and the
object it leaves, for both ways it can fail. -/
theorem onCreateOrUpdate_program_failed_object (env : Env) (c : Controller) (key : String)
    (n : Int) (g : GlobalEgressIP) (nr : Int) (hn : 1 ≤ n) :
    ∃ c3 g3 rq, onCreateOrUpdate env c key n g nr = some (c3, g3, rq) ∧
      ((∃ ev ∈ newCalls c c3,
          ((∃ r, ev.call = Call.AddEgressRules r) ∨
            (∃ name b, ev.call = Call.ipSetCreate name b)) ∧ ev.err ≠ none) →
        ∃ c1 g1 nis c2 ips p1 snat msg,
          createPodWatcher env c key g = (c1, g1, some nis) ∧
          flushGlobalEgressRulesAndReleaseIPs env c1 key nis.Name nr g1 = some (c2, false) ∧
          c2.pool.Allocate n = some (ips, p1) ∧
          getTargetSNATIPaddress ips = some snat ∧
          ((∃ e, msg = "error creating the IP set chain " ++ goQuote nis.Name ++ ": " ++ e ∧
              c3.trace = c2.trace ++
                [⟨Call.poolAllocate n, none⟩,
                 ⟨Call.ipSetCreate nis.Name true, some e⟩,
                 ⟨Call.poolRelease ips, none⟩]) ∨
           (∃ e2, c3.trace = c2.trace ++
                [⟨Call.poolAllocate n, none⟩,
                 ⟨Call.ipSetCreate nis.Name true, none⟩,
                 ⟨Call.AddEgressRules
                    (egressRule env g.Spec.PodSelector key (getIPSetName env key) snat),
                    some msg⟩,
                 ⟨Call.RemoveEgressRules
                    (egressRule env g.Spec.PodSelector key (getIPSetName env key) snat), e2⟩,
                 ⟨Call.poolRelease ips, none⟩])) ∧
          c3.pool = c2.pool ∧ c3.podWatchers = c2.podWatchers ∧
          rq = true ∧
          g3 = (g1.setAllocatedIPs []).appendCondition (condProgramIPTableRulesFailed msg) ∧
          g.Status.Conditions <+: g1.Status.Conditions ∧
          ((∀ pw0, c.podWatchers.lookup key = some pw0 →
              pw0.podSelector = g.Spec.PodSelector) → g1 = g)) := by
  obtain ⟨c1, g1, hq1, _, hspec, _, _, _, hpre, hcases⟩ :=
    onCreateOrUpdate_cases env c key n g nr
  have noFail : ∀ (c2 : Controller) (P : Prop),
      Steps (fun ev => ((∃ r, ev.call = Call.AddEgressRules r) ∨
        (∃ name b, ev.call = Call.ipSetCreate name b)) → ev.err = none) c c2 →
      (∃ ev ∈ newCalls c c2, ((∃ r, ev.call = Call.AddEgressRules r) ∨
        (∃ name b, ev.call = Call.ipSetCreate name b)) ∧ ev.err ≠ none) → P := by
    intro c2 P hs ⟨ev, hev, hm, herr⟩
    exact absurd (hs.mem_newCalls ev hev hm) herr
  rcases hcases with ⟨_, hres⟩ | ⟨nis, pw, hc, _, hsel, hrest⟩
  · exact ⟨c1, g1, true, hres, noFail c1 _ (hq1.steps notFailedProgram_of_quiet)⟩
  · rcases hrest with ⟨_, hres⟩ | ⟨_, c2, rq, hf, hq2, _, hrq⟩
    · exact ⟨c1, g1, false, hres, noFail c1 _ (hq1.steps notFailedProgram_of_quiet)⟩
    · have hq := (hq1.andThen hq2).steps notFailedProgram_of_quiet
      rcases hrq with ⟨_, hres⟩ | ⟨hrqf, hres⟩
      · exact ⟨c2, g1, true, hres, noFail c2 _ hq⟩
      · subst hrqf
        rcases allocateGlobalIPs_spec env c2 key n g1 nis hn with
          ⟨_, ha⟩ | ⟨ips, p1, snat, hal, _, hs, ha⟩
        · refine ⟨_, _, _, hres.trans ha, noFail _ _ ?_⟩
          refine hq.trans (Steps.log _ _ ?_)
          rintro (⟨r, hr⟩ | ⟨name, b, hr⟩) <;> cases hr
        · have h0 := (hq.trans (Steps.setPool c2 p1)).trans
            (Steps.log _ ⟨Call.poolAllocate n, none⟩ (fun _ => rfl))
          rcases ha with ⟨e, ha⟩ | ha | ⟨e, e2, ha⟩
          · refine ⟨_, _, _, hres.trans ha, fun _ =>
              ⟨c1, g1, nis, c2, ips, p1, snat, _, hc, hf, hal, hs, Or.inl ⟨e, rfl, ?_⟩, ?_,
                rfl, rfl, rfl, hpre, fun h => (hsel h).2⟩⟩
            · simp [Controller.release, Controller.log,
                IPPool.Release_Allocate c2.pool n ips p1 hal]
            · simp [Controller.release, Controller.log,
                IPPool.Release_Allocate c2.pool n ips p1 hal]
          · refine ⟨_, _, _, hres.trans ha, noFail _ _ ?_⟩
            refine ((h0.trans (Steps.log _ _ ?_)).trans (Steps.log _ _ ?_))
            · intro _
              rfl
            · intro _
              rfl
          · refine ⟨_, _, _, hres.trans ha, fun _ =>
              ⟨c1, g1, nis, c2, ips, p1, snat, e, hc, hf, hal, hs, Or.inr ⟨e2, ?_⟩, ?_,
                rfl, rfl, rfl, hpre, fun h => (hsel h).2⟩⟩
            · simp [IPPool.Release_Allocate c2.pool n ips p1 hal, hspec]
            · simp [IPPool.Release_Allocate c2.pool n ips p1 hal]

/-! ## Claims about the base utilities -/
/-- C1: for a non-empty list of allocated IPs `getTargetSNATIPaddress` returns (without
panicking) the single element when the list has exactly one entry, and otherwise the first
element, a `-`, and the last element of the list. -/
theorem getTargetSNATIPaddress_spec (allocIPs : List String) (h : allocIPs ≠ []) :
    getTargetSNATIPaddress allocIPs =
      some (if allocIPs.length = 1 then allocIPs.head h
            else allocIPs.head h ++ "-" ++ allocIPs.getLast h) := by
  cases allocIPs with
  | nil => exact absurd rfl h
  | cons a t =>
    by_cases h1 : t = []
    · subst h1
      simp [getTargetSNATIPaddress]
    · have hlen : (a :: t).length ≠ 1 := by
        simp [h1]
      have hlast : (a :: t)[(a :: t).length - 1]? = some ((a :: t).getLast h) := by
        rw [List.getLast_eq_getElem]
        exact List.getElem?_eq_getElem _
      simp only [getTargetSNATIPaddress, hlen, if_false, hlast]
      simp

/-- Witness for C1 on a two-address allocation. -/
theorem getTargetSNATIPaddress_spec_witness :
    getTargetSNATIPaddress ["10.0.0.1", "10.0.0.2"] =
      some (if ["10.0.0.1", "10.0.0.2"].length = 1 then
              ["10.0.0.1", "10.0.0.2"].head (by simp)
            else ["10.0.0.1", "10.0.0.2"].head (by simp) ++ "-" ++
              ["10.0.0.1", "10.0.0.2"].getLast (by simp)) :=
  getTargetSNATIPaddress_spec ["10.0.0.1", "10.0.0.2"] (by simp)

/-- C9: `FlushAllocatedIPRules` returns true exactly when the list is non-empty, the flush
callback returns an error and `numRequeues < 20`; with `numRequeues = 20` it never requests a
requeue; and `shouldRequeue n` is true iff `n < 20`. -/
theorem FlushAllocatedIPRules_requeue_iff :
    (∀ (key : String) (numRequeues : Int) (flushRules : List String → Option String)
        (allocatedIPs : List String),
        FlushAllocatedIPRules key numRequeues flushRules allocatedIPs = true ↔
          (allocatedIPs ≠ [] ∧ (flushRules allocatedIPs).isSome = true ∧ numRequeues < 20)) ∧
    (∀ (key : String) (flushRules : List String → Option String) (allocatedIPs : List String),
        FlushAllocatedIPRules key 20 flushRules allocatedIPs = false) ∧
    (∀ n : Int, shouldRequeue n = true ↔ n < 20) := by
  have hs : ∀ n : Int, shouldRequeue n = true ↔ n < 20 := by
    intro n
    simp [shouldRequeue, maxRequeues]
  refine ⟨?_, ?_, hs⟩
  · intro key n f ips
    unfold FlushAllocatedIPRules
    by_cases hl : ips = []
    · simp [hl]
    · have hlen : ips.length ≠ 0 := by
        simpa using hl
      cases hf : f ips with
      | none => simp [hlen]
      | some e => simp [hlen, hl, hs]
  · intro key f ips
    unfold FlushAllocatedIPRules
    have h20 : shouldRequeue 20 = false := by
      simp [shouldRequeue, maxRequeues]
    cases hf : f ips with
    | none => simp
    | some e => simp [h20]

/-! ## The claims about `process` -/

theorem ne_delete_of_createOrUpdate {op : Operation}
    (hop : op = Operation.Create ∨ op = Operation.Update) : op ≠ Operation.Delete := by
  rcases hop with h | h <;> subst h <;> intro h <;> cases h

/-- C10 (counterexample): the most recent condition of the object is already InvalidInput; a
further Update with numberOfIPs = -1 appends nothing, the conditions are as before. -/
theorem process_negative_numberOfIPs_not_appended :
    ∃ r, process exampleEnv (exampleController [] [])
        (exampleObject (some (-1)) none [condInvalidInput] []) 0 Operation.Update = some r ∧
      r.obj.Status.Conditions = [condInvalidInput] ∧
      r.obj.Status.Conditions.length = 1 := by
  refine ⟨_, rfl, ?_, ?_⟩ <;> decide

/-- C10 (amended): for an object whose numberOfIPs is negative, a Create or Update returns
(without panicking) requeue=false and records the condition Allocated=False / InvalidInput: it
appends the condition, unless the most recent condition of type Allocated is already this
very condition, in which case the conditions are as before; either way it is the most recent
condition afterwards. Nothing else changes: the controller (pool, pod-watcher map, calls
issued to the drivers), `status.allocatedIPs` and the spec are as before. -/
theorem process_negative_numberOfIPs (env : Env) (c : Controller) (g : GlobalEgressIP) (nr : Int)
    (op : Operation) (hop : op = Operation.Create ∨ op = Operation.Update)
    (hn : specNumberOfIPs g < 0) :
    ∃ r, process env c g nr op = some r ∧ r.requeue = false ∧ r.ctl = c ∧
      r.obj.Status.AllocatedIPs = g.Status.AllocatedIPs ∧ r.obj.Spec = g.Spec ∧
      (lastOfType g.Status.Conditions GlobalEgressIPAllocated ≠ some condInvalidInput →
        r.obj.Status.Conditions = g.Status.Conditions ++ [condInvalidInput]) ∧
      (lastOfType g.Status.Conditions GlobalEgressIPAllocated = some condInvalidInput →
        r.obj.Status.Conditions = g.Status.Conditions) ∧
      lastOfType r.obj.Status.Conditions GlobalEgressIPAllocated = some condInvalidInput ∧
      condInvalidInput.status = ConditionStatus.ConditionFalse ∧
      condInvalidInput.reason = "InvalidInput" := by
  have hproc : process env c g nr op =
      some { out := checkStatusChanged g.Status (g.appendCondition condInvalidInput).Status
                      (g.appendCondition condInvalidInput),
             requeue := false, obj := g.appendCondition condInvalidInput, ctl := c } := by
    rcases hop with h | h <;> subst h <;> simp [process, validate_neg _ _ hn]
  have hc := tryAppend_cases g.Status.Conditions condInvalidInput
  have he := tryAppend_exact g.Status.Conditions condInvalidInput
  exact ⟨_, hproc, rfl, rfl, rfl, rfl, he.2, he.1, hc.2, rfl, rfl⟩

/-- Witness for C10 (amended): the object `ns/a` with numberOfIPs = -1, an existing allocation
and no condition yet. -/
theorem process_negative_numberOfIPs_witness :
    ∃ r, process exampleEnv (exampleController ["10.0.0.1"] [])
        (exampleObject (some (-1)) none [] ["10.0.0.1"]) 0 Operation.Update = some r ∧
      r.requeue = false ∧ r.ctl = exampleController ["10.0.0.1"] [] ∧
      r.obj.Status.AllocatedIPs = ["10.0.0.1"] ∧
      r.obj.Status.Conditions = [condInvalidInput] := by
  obtain ⟨r, hr, h1, h2, h3, _, h5, _⟩ := process_negative_numberOfIPs exampleEnv
    (exampleController ["10.0.0.1"] []) (exampleObject (some (-1)) none [] ["10.0.0.1"]) 0
    Operation.Update (Or.inr rfl) (by decide)
  exact ⟨r, hr, h1, h2, h3, h5 (by decide)⟩

/-- C2 (code at the failing input): an Update of the object `ns/a` with numberOfIPs = 0 that
holds the allocation `10.0.0.1` records ZeroInput and returns requeue=false, but leaves
`status.allocatedIPs = [10.0.0.1]`, the address reserved in the pool, and issues no call that
would remove the rules of the allocation. -/
theorem process_zeroInput_keeps_allocation :
    ∃ r, process exampleEnv (exampleController ["10.0.0.1"] [])
        (exampleObject (some 0) none [condSuccess 1] ["10.0.0.1"]) 0 Operation.Update = some r ∧
      r.requeue = false ∧
      r.obj.Status.AllocatedIPs = ["10.0.0.1"] ∧
      r.obj.Status.Conditions = [condSuccess 1, condZeroInput] ∧
      r.ctl = exampleController ["10.0.0.1"] [] := by
  refine ⟨_, rfl, ?_, ?_, ?_, ?_⟩ <;> decide

/-- C3 (counterexample): the most recent condition of `ns/a` is already
IPPoolAllocationFailed (a retry); `pool.Allocate` fails again and nothing is appended. -/
theorem process_allocate_failed_not_appended :
    ∃ r, process exampleEnv (exampleController ["10.0.0.1", "10.0.0.2"] [])
        (exampleObject (some 2) none [condIPPoolAllocationFailed 2 "Exhausted"] []) 1
        Operation.Update = some r ∧
      (⟨Call.poolAllocate 2, some "Exhausted"⟩ : Event) ∈
        newCalls (exampleController ["10.0.0.1", "10.0.0.2"] []) r.ctl ∧
      r.obj.Status.Conditions = [condIPPoolAllocationFailed 2 "Exhausted"] ∧
      r.obj.Status.Conditions.length = 1 := by
  refine ⟨_, rfl, ?_, ?_, ?_⟩ <;> decide

/-- C3 (amended): for every object and controller state, a Create or Update with
numberOfIPs >= 1 returns (without panicking), and when `pool.Allocate(numberOfIPs)` failed
during it, the result has requeue=true and an empty `status.allocatedIPs`, and the condition
Allocated=False / IPPoolAllocationFailed is recorded: with `prev` the conditions at that point
(those of the object, after the check of the pod selector by `createPodWatcher`), it is
appended to `prev`, unless the most recent condition of type Allocated in `prev` is already
this very condition, in which case the conditions are `prev`; either way it is the most recent
condition afterwards. -/
theorem process_allocate_failed (env : Env) (c : Controller) (g : GlobalEgressIP) (nr : Int)
    (op : Operation) (hop : op = Operation.Create ∨ op = Operation.Update)
    (hn : 1 ≤ specNumberOfIPs g) :
    ∃ r, process env c g nr op = some r ∧
      ((∃ err, (⟨Call.poolAllocate (specNumberOfIPs g), some err⟩ : Event) ∈
          newCalls c r.ctl) →
        r.requeue = true ∧ r.obj.Status.AllocatedIPs = [] ∧
        ∃ prev cond,
          prev = (createPodWatcher env c (MetaNamespaceKeyFunc g) g).2.1.Status.Conditions ∧
          cond = condIPPoolAllocationFailed (specNumberOfIPs g) "Exhausted" ∧
          g.Status.Conditions <+: prev ∧
          ((∀ pw0, c.podWatchers.lookup (MetaNamespaceKeyFunc g) = some pw0 →
              pw0.podSelector = g.Spec.PodSelector) → prev = g.Status.Conditions) ∧
          (lastOfType prev GlobalEgressIPAllocated ≠ some cond →
            r.obj.Status.Conditions = prev ++ [cond]) ∧
          (lastOfType prev GlobalEgressIPAllocated = some cond →
            r.obj.Status.Conditions = prev) ∧
          lastOfType r.obj.Status.Conditions GlobalEgressIPAllocated = some cond ∧
          cond.type = GlobalEgressIPAllocated ∧
          cond.status = ConditionStatus.ConditionFalse ∧
          cond.reason = "IPPoolAllocationFailed") := by
  obtain ⟨c2, g2, rq, hres, himp⟩ := onCreateOrUpdate_allocate_failed_object env c
    (MetaNamespaceKeyFunc g) (specNumberOfIPs g) g nr hn
  rw [process_createOrUpdate_pos env c g nr op (ne_delete_of_createOrUpdate hop) hn, hres]
  refine ⟨_, rfl, ?_⟩
  rintro ⟨err, hmem⟩
  obtain ⟨h1, h2, h3, h4⟩ := himp ⟨_, hmem, ⟨_, rfl⟩, by simp⟩
  have he := tryAppend_exact
    (createPodWatcher env c (MetaNamespaceKeyFunc g) g).2.1.Status.Conditions
    (condIPPoolAllocationFailed (specNumberOfIPs g) "Exhausted")
  have hc := tryAppend_cases
    (createPodWatcher env c (MetaNamespaceKeyFunc g) g).2.1.Status.Conditions
    (condIPPoolAllocationFailed (specNumberOfIPs g) "Exhausted")
  simp only [] at h2 ⊢
  subst h2
  refine ⟨h1, rfl, _, _, rfl, rfl, h3, ?_, he.2, he.1, hc.2, rfl, rfl, rfl⟩
  intro hsel
  rw [h4 hsel]

/-- Witness for C3 (amended): scenario 3 of the spec; `ns/a` asks for 2 addresses when one is
free, and has no condition yet. -/
theorem process_allocate_failed_witness :
    ∃ r, process exampleEnv (exampleController ["10.0.0.1", "10.0.0.2"] [])
        (exampleObject (some 2) none [] []) 0 Operation.Create = some r ∧
      (∃ err, (⟨Call.poolAllocate 2, some err⟩ : Event) ∈
        newCalls (exampleController ["10.0.0.1", "10.0.0.2"] []) r.ctl) ∧
      r.requeue = true ∧ r.obj.Status.AllocatedIPs = [] ∧
      r.obj.Status.Conditions = [condIPPoolAllocationFailed 2 "Exhausted"] := by
  obtain ⟨r, hr, himp⟩ := process_allocate_failed exampleEnv
    (exampleController ["10.0.0.1", "10.0.0.2"] []) (exampleObject (some 2) none [] []) 0
    Operation.Create (Or.inl rfl) (by decide)
  have hmem : ∃ err, (⟨Call.poolAllocate 2, some err⟩ : Event) ∈
      newCalls (exampleController ["10.0.0.1", "10.0.0.2"] []) r.ctl := by
    have hev : ∃ r0, process exampleEnv (exampleController ["10.0.0.1", "10.0.0.2"] [])
        (exampleObject (some 2) none [] []) 0 Operation.Create = some r0 ∧
        (⟨Call.poolAllocate 2, some "Exhausted"⟩ : Event) ∈
          newCalls (exampleController ["10.0.0.1", "10.0.0.2"] []) r0.ctl :=
      ⟨_, rfl, by decide⟩
    obtain ⟨r0, hr0, hm⟩ := hev
    rw [hr] at hr0
    cases hr0
    exact ⟨_, hm⟩
  obtain ⟨h1, h2, prev, cond, hprev, hcond, _, hsame, happ, _⟩ := himp hmem
  have hp : prev = [] := hsame (by
    intro pw0 h
    cases h)
  subst hcond
  rw [hp] at happ
  exact ⟨r, hr, hmem, h1, h2, happ (by decide)⟩

/-- C4 (counterexample): at numRequeues = 20, which is not below maxRequeues, a Create whose
`pool.Allocate` fails still returns requeue=true. -/
theorem process_allocate_failed_requeues_at_cap :
    ¬ ((20 : Int) < maxRequeues) ∧
    ∃ r, process exampleEnv (exampleController ["10.0.0.1", "10.0.0.2"] [])
        (exampleObject (some 2) none [] []) 20 Operation.Create = some r ∧
      (⟨Call.poolAllocate 2, some "Exhausted"⟩ : Event) ∈
        newCalls (exampleController ["10.0.0.1", "10.0.0.2"] []) r.ctl ∧
      r.requeue = true := by
  refine ⟨by decide, _, rfl, ?_, ?_⟩ <;> decide

/-- C4 (amended): requeueing on pool exhaustion is not capped: for every Create or Update with
numberOfIPs >= 1 in which `pool.Allocate` fails, `process` returns requeue=true whatever
numRequeues is, in particular when `shouldRequeue numRequeues` is false. -/
theorem process_allocate_failed_requeue_uncapped (env : Env) (c : Controller)
    (g : GlobalEgressIP) (nr : Int) (op : Operation)
    (hop : op = Operation.Create ∨ op = Operation.Update) (hn : 1 ≤ specNumberOfIPs g) :
    ∃ r, process env c g nr op = some r ∧
      ((∃ err, (⟨Call.poolAllocate (specNumberOfIPs g), some err⟩ : Event) ∈
          newCalls c r.ctl) →
        r.requeue = true) := by
  obtain ⟨c2, g2, rq, hres, himp⟩ := onCreateOrUpdate_allocate_failed env c
    (MetaNamespaceKeyFunc g) (specNumberOfIPs g) g nr hn
  rw [process_createOrUpdate_pos env c g nr op (ne_delete_of_createOrUpdate hop) hn, hres]
  refine ⟨_, rfl, ?_⟩
  rintro ⟨err, hmem⟩
  exact (himp ⟨_, hmem, ⟨_, rfl⟩, by simp⟩).1

/-- Witness for C4 (amended): the exhausted pool at numRequeues = 25. -/
theorem process_allocate_failed_requeue_uncapped_witness :
    shouldRequeue 25 = false ∧
    ∃ r, process exampleEnv (exampleController ["10.0.0.1", "10.0.0.2"] [])
        (exampleObject (some 2) none [] []) 25 Operation.Update = some r ∧
      (∃ err, (⟨Call.poolAllocate 2, some err⟩ : Event) ∈
        newCalls (exampleController ["10.0.0.1", "10.0.0.2"] []) r.ctl) ∧
      r.requeue = true := by
  obtain ⟨r, hr, himp⟩ := process_allocate_failed_requeue_uncapped exampleEnv
    (exampleController ["10.0.0.1", "10.0.0.2"] []) (exampleObject (some 2) none [] []) 25
    Operation.Update (Or.inr rfl) (by decide)
  have hmem : ∃ err, (⟨Call.poolAllocate 2, some err⟩ : Event) ∈
      newCalls (exampleController ["10.0.0.1", "10.0.0.2"] []) r.ctl := by
    have hev : ∃ r0, process exampleEnv (exampleController ["10.0.0.1", "10.0.0.2"] [])
        (exampleObject (some 2) none [] []) 25 Operation.Update = some r0 ∧
        (⟨Call.poolAllocate 2, some "Exhausted"⟩ : Event) ∈
          newCalls (exampleController ["10.0.0.1", "10.0.0.2"] []) r0.ctl :=
      ⟨_, rfl, by decide⟩
    obtain ⟨r0, hr0, hm⟩ := hev
    rw [hr] at hr0
    cases hr0
    exact ⟨_, hm⟩
  exact ⟨by decide, r, hr, hmem, himp hmem⟩

/-- C5: for every Create or Update with numberOfIPs >= 1, `process` returns (without
panicking), and when it returns requeue=false the resulting object has
`|status.allocatedIPs| = numberOfIPs`. -/
theorem process_settled_allocation_size (env : Env) (c : Controller) (g : GlobalEgressIP)
    (nr : Int) (op : Operation) (hop : op = Operation.Create ∨ op = Operation.Update)
    (hn : 1 ≤ specNumberOfIPs g) :
    ∃ r, process env c g nr op = some r ∧
      (r.requeue = false → (r.obj.Status.AllocatedIPs.length : Int) = specNumberOfIPs g) := by
  obtain ⟨c2, g2, rq, hres, himp⟩ := onCreateOrUpdate_settled env c
    (MetaNamespaceKeyFunc g) (specNumberOfIPs g) g nr hn
  rw [process_createOrUpdate_pos env c g nr op (ne_delete_of_createOrUpdate hop) hn, hres]
  exact ⟨_, rfl, fun h => (himp h).1⟩

/-- Witness for C5: scenario 2 of the spec; `ns/a` shrinks from two addresses to one. -/
theorem process_settled_allocation_size_witness :
    ∃ r, process exampleEnv (exampleController ["10.0.0.1", "10.0.0.2"] [])
        (exampleObject (some 1) none [condSuccess 2] ["10.0.0.1", "10.0.0.2"]) 0
        Operation.Update = some r ∧
      r.requeue = false ∧ (r.obj.Status.AllocatedIPs.length : Int) = 1 := by
  obtain ⟨r, hr, himp⟩ := process_settled_allocation_size exampleEnv
    (exampleController ["10.0.0.1", "10.0.0.2"] [])
    (exampleObject (some 1) none [condSuccess 2] ["10.0.0.1", "10.0.0.2"]) 0
    Operation.Update (Or.inr rfl) (by decide)
  have hrq : r.requeue = false := by
    have hev : ∃ r0, process exampleEnv (exampleController ["10.0.0.1", "10.0.0.2"] [])
        (exampleObject (some 1) none [condSuccess 2] ["10.0.0.1", "10.0.0.2"]) 0
        Operation.Update = some r0 ∧ r0.requeue = false :=
      ⟨_, rfl, by decide⟩
    obtain ⟨r0, hr0, hm⟩ := hev
    rw [hr] at hr0
    cases hr0
    exact hm
  exact ⟨r, hr, hrq, himp hrq⟩

/-- C6 (counterexample): the key `ns/a` already has a pod watcher with another pod selector.
The first Update succeeds (requeue=false); processing the resulting object again returns a
write-back object and a longer list of conditions. -/
theorem process_twice_selector_conflict :
    ∃ r1 r2,
      process exampleEnv
        (exampleController []
          [("ns/a", { podSelector := some { matchLabels := [("app", "db")] }
                      namedIPSet := newNamedIPSet exampleEnv "ns/a"
                      stopChClosed := false })])
        (exampleObject (some 1) none [] []) 0 Operation.Update = some r1 ∧
      r1.requeue = false ∧
      process exampleEnv r1.ctl r1.obj 0 Operation.Update = some r2 ∧
      r2.out ≠ none ∧
      r1.obj.Status.Conditions = [condPodSelectorUpdateNotSupported, condSuccess 1] ∧
      r2.obj.Status.Conditions =
        [condPodSelectorUpdateNotSupported, condSuccess 1, condPodSelectorUpdateNotSupported] := by
  refine ⟨_, _, rfl, ?_, rfl, ?_, ?_, ?_⟩ <;> decide

theorem tryAppend_idem (old : List Condition) (cond : Condition) :
    tryAppendStatusCondition (tryAppendStatusCondition old cond) cond =
      tryAppendStatusCondition old cond := by
  have h := (tryAppend_cases old cond).2
  unfold lastOfType at h
  generalize tryAppendStatusCondition old cond = l at h
  unfold tryAppendStatusCondition TryAppendCondition
  rw [h]
  simp

theorem appendCondition_idem (g : GlobalEgressIP) (cond : Condition) :
    (g.appendCondition cond).appendCondition cond = g.appendCondition cond := by
  unfold GlobalEgressIP.appendCondition
  simp only [tryAppend_idem]

/-- A reconcile of an object whose allocation already has the requested size, and the
reconcile of its result. -/
theorem onCreateOrUpdate_steady_twice (env : Env) (c : Controller) (key : String) (n : Int)
    (g : GlobalEgressIP) (nr : Int) (hlen : (g.Status.AllocatedIPs.length : Int) = n) :
    ∃ c1 g1 rq, onCreateOrUpdate env c key n g nr = some (c1, g1, rq) ∧
      g1.Spec = g.Spec ∧ g1.Namespace = g.Namespace ∧ g1.Name = g.Name ∧
      (rq = false → ∀ nr2, onCreateOrUpdate env c1 key n g1 nr2 = some (c1, g1, false)) := by
  cases hl : c.podWatchers.lookup key with
  | some prev =>
    by_cases hsel : prev.podSelector = g.Spec.PodSelector
    · have h1 := onCreateOrUpdate_steady env c key n g nr prev hl hsel hlen
      exact ⟨c, g, false, h1, rfl, rfl, rfl, fun _ nr2 =>
        onCreateOrUpdate_steady env c key n g nr2 prev hl hsel hlen⟩
    · have hrun : ∀ (g0 : GlobalEgressIP) (nr0 : Int), g0.Spec = g.Spec →
          (g0.Status.AllocatedIPs.length : Int) = n →
          onCreateOrUpdate env c key n g0 nr0 =
            some (c, g0.appendCondition condPodSelectorUpdateNotSupported, false) := by
        intro g0 nr0 hs0 hl0
        have hne : prev.podSelector ≠ g0.Spec.PodSelector := by
          rw [hs0]
          exact hsel
        unfold onCreateOrUpdate
        rw [createPodWatcher_found env c key g0 prev hl, if_pos hne]
        simp only [appendCondition_AllocatedIPs, hl0.symm, if_true]
      refine ⟨c, g.appendCondition condPodSelectorUpdateNotSupported, false,
        hrun g nr rfl hlen, rfl, rfl, rfl, fun _ nr2 => ?_⟩
      rw [hrun (g.appendCondition condPodSelectorUpdateNotSupported) nr2 rfl hlen,
        appendCondition_idem]
  | none =>
    have hm := createPodWatcher_missing env c key g hl
    cases hd : env.driver c.trace.length (Call.startPodWatcher key g.Namespace
        (newNamedIPSet env key).Name g.Spec.PodSelector) with
    | some e =>
      rw [hd] at hm
      refine ⟨c.log ⟨Call.startPodWatcher key g.Namespace (newNamedIPSet env key).Name
        g.Spec.PodSelector, some e⟩, g, true, ?_, rfl, rfl, rfl, fun h => by cases h⟩
      unfold onCreateOrUpdate
      rw [hm]
    | none =>
      rw [hd] at hm
      refine ⟨{ c.log ⟨Call.startPodWatcher key g.Namespace (newNamedIPSet env key).Name
                  g.Spec.PodSelector, none⟩ with
                podWatchers := (key, { podSelector := g.Spec.PodSelector
                                       namedIPSet := newNamedIPSet env key
                                       stopChClosed := false }) :: c.podWatchers },
        g, false, ?_, rfl, rfl, rfl, fun _ nr2 => ?_⟩
      · unfold onCreateOrUpdate
        rw [hm]
        simp only [hlen.symm, if_true]
      · exact onCreateOrUpdate_steady env _ key n g nr2
          { podSelector := g.Spec.PodSelector
            namedIPSet := newNamedIPSet env key
            stopChClosed := false } (by simp [List.lookup]) rfl hlen

/-- What `onCreateOrUpdate` never changes in the object. -/
theorem onCreateOrUpdate_frame (env : Env) (c : Controller) (key : String) (n : Int)
    (g : GlobalEgressIP) (nr : Int) (hn : 1 ≤ n) (c2 : Controller) (g2 : GlobalEgressIP)
    (rq : Bool) (hres : onCreateOrUpdate env c key n g nr = some (c2, g2, rq)) :
    g2.Spec = g.Spec ∧ g2.Namespace = g.Namespace ∧ g2.Name = g.Name := by
  obtain ⟨c1, g1, _, _, hs, hns, hname, _, _, hcases⟩ :=
    onCreateOrUpdate_cases env c key n g nr
  rcases hcases with ⟨_, h⟩ | ⟨nis, pw, _, _, _, hrest⟩
  · rw [hres] at h
    cases h
    exact ⟨hs, hns, hname⟩
  · rcases hrest with ⟨_, h⟩ | ⟨_, c3, rq3, _, _, _, hrq⟩
    · rw [hres] at h
      cases h
      exact ⟨hs, hns, hname⟩
    · rcases hrq with ⟨_, h⟩ | ⟨_, h⟩
      · rw [hres] at h
        cases h
        exact ⟨hs, hns, hname⟩
      · rw [hres] at h
        rcases allocateGlobalIPs_spec env c3 key n g1 nis hn with
          ⟨_, ha⟩ | ⟨ips, p1, snat, _, _, _, ha⟩
        · rw [← h] at ha
          cases ha
          exact ⟨hs, hns, hname⟩
        · rcases ha with ⟨e, ha⟩ | ha | ⟨e, e2, ha⟩ <;>
            · rw [← h] at ha
              cases ha
              exact ⟨hs, hns, hname⟩

/-- Idempotence of `onCreateOrUpdate` after a reconcile that does not ask for a requeue. -/
theorem onCreateOrUpdate_twice (env : Env) (c : Controller) (key : String) (n : Int)
    (g : GlobalEgressIP) (nr : Int) (hn : 1 ≤ n)
    (hsel : (∀ pw, c.podWatchers.lookup key = some pw → pw.podSelector = g.Spec.PodSelector) ∨
      (g.Status.AllocatedIPs.length : Int) = n) :
    ∃ c1 g1 rq, onCreateOrUpdate env c key n g nr = some (c1, g1, rq) ∧
      g1.Spec = g.Spec ∧ g1.Namespace = g.Namespace ∧ g1.Name = g.Name ∧
      (rq = false → ∀ nr2, onCreateOrUpdate env c1 key n g1 nr2 = some (c1, g1, false)) := by
  rcases hsel with hsel | hlen
  · obtain ⟨c2, g2, rq, hres, himp⟩ := onCreateOrUpdate_settled env c key n g nr hn
    obtain ⟨hs, hns, hname⟩ := onCreateOrUpdate_frame env c key n g nr hn c2 g2 rq hres
    refine ⟨c2, g2, rq, hres, hs, hns, hname, fun hrq nr2 => ?_⟩
    obtain ⟨hlen, _, _, _, pw, hl, hpw⟩ := himp hrq
    exact onCreateOrUpdate_steady env c2 key n g2 nr2 pw hl (by rw [hs]; exact hpw hsel) hlen
  · exact onCreateOrUpdate_steady_twice env c key n g nr hlen

/-- C6 (amended): for every object with numberOfIPs >= 1 such that the pod selector equals
that of the pod watcher already registered for its key (if there is one), or such that
`status.allocatedIPs` already has numberOfIPs entries: when a first Create or Update returns
requeue=false, processing the resulting object again (same spec) returns no write-back object
and requeue=false and leaves the object (status included) and the controller (pool,
pod-watcher map, calls issued to the drivers) exactly as the first processing left them. -/
theorem process_twice_noop (env : Env) (c : Controller) (g : GlobalEgressIP) (nr1 nr2 : Int)
    (op1 op2 : Operation) (hop1 : op1 = Operation.Create ∨ op1 = Operation.Update)
    (hop2 : op2 = Operation.Create ∨ op2 = Operation.Update) (hn : 1 ≤ specNumberOfIPs g)
    (hsel : (∀ pw, c.podWatchers.lookup (MetaNamespaceKeyFunc g) = some pw →
        pw.podSelector = g.Spec.PodSelector) ∨
      (g.Status.AllocatedIPs.length : Int) = specNumberOfIPs g) :
    ∃ r1, process env c g nr1 op1 = some r1 ∧ r1.obj.Spec = g.Spec ∧
      (r1.requeue = false →
        process env r1.ctl r1.obj nr2 op2 =
          some { out := none, requeue := false, obj := r1.obj, ctl := r1.ctl }) := by
  obtain ⟨c2, g2, rq, hres, hs, hns, hname, himp⟩ := onCreateOrUpdate_twice env c
    (MetaNamespaceKeyFunc g) (specNumberOfIPs g) g nr1 hn hsel
  rw [process_createOrUpdate_pos env c g nr1 op1 (ne_delete_of_createOrUpdate hop1) hn, hres]
  refine ⟨_, rfl, hs, ?_⟩
  intro hrq
  have hkey : MetaNamespaceKeyFunc g2 = MetaNamespaceKeyFunc g := by
    unfold MetaNamespaceKeyFunc
    rw [hns, hname]
  have hnum : specNumberOfIPs g2 = specNumberOfIPs g := by
    unfold specNumberOfIPs
    rw [hs]
  have hn2 : 1 ≤ specNumberOfIPs g2 := by
    rw [hnum]
    exact hn
  simp only []
  rw [process_createOrUpdate_pos env c2 g2 nr2 op2 (ne_delete_of_createOrUpdate hop2) hn2,
    hkey, hnum, himp hrq nr2]
  simp [checkStatusChanged]

/-- Witness for C6 (amended): scenario 1 of the spec applied twice. -/
theorem process_twice_noop_witness :
    ∃ r1, process exampleEnv (exampleController [] []) (exampleObject (some 2) none [] []) 0
        Operation.Create = some r1 ∧
      r1.requeue = false ∧
      process exampleEnv r1.ctl r1.obj 0 Operation.Update =
        some { out := none, requeue := false, obj := r1.obj, ctl := r1.ctl } := by
  obtain ⟨r1, hr, _, himp⟩ := process_twice_noop exampleEnv (exampleController [] [])
    (exampleObject (some 2) none [] []) 0 0 Operation.Create Operation.Update (Or.inl rfl)
    (Or.inr rfl) (by decide) (Or.inl (by
      intro pw h
      cases h))
  have hrq : r1.requeue = false := by
    have hev : ∃ r0, process exampleEnv (exampleController [] [])
        (exampleObject (some 2) none [] []) 0 Operation.Create = some r0 ∧
        r0.requeue = false :=
      ⟨_, rfl, by decide⟩
    obtain ⟨r0, hr0, hm⟩ := hev
    rw [hr] at hr0
    cases hr0
    exact hm
  exact ⟨r1, hr, hrq, himp hrq⟩

/-- C7 (counterexample): creating the IP set of `ns/a` fails after `pool.Allocate` succeeded,
so `programGlobalEgressRules` fails: the addresses are released and the event is requeued, but
no remove of a rule is attempted, and since the most recent condition is already this
ProgramIPTableRulesFailed condition (a retry), nothing is appended. -/
theorem process_ipset_create_failed_no_remove :
    ∃ r, process createFailsEnv (exampleController ["10.0.0.1"] [])
        (exampleObject (some 2) none
          [condProgramIPTableRulesFailed
            "error creating the IP set chain \"SM-GN-BGWHJO2W6GOSY7WZGE6TEOXFM\": ipset: kernel error"]
          [])
        1 Operation.Update = some r ∧
      newCalls (exampleController ["10.0.0.1"] []) r.ctl =
        [⟨Call.startPodWatcher "ns/a" "ns" "SM-GN-BGWHJO2W6GOSY7WZGE6TEOXFM" none, none⟩,
         ⟨Call.poolAllocate 2, none⟩,
         ⟨Call.ipSetCreate "SM-GN-BGWHJO2W6GOSY7WZGE6TEOXFM" true, some "ipset: kernel error"⟩,
         ⟨Call.poolRelease ["10.0.0.2", "10.0.0.3"], none⟩] ∧
      r.requeue = true ∧
      r.obj.Status.Conditions =
        [condProgramIPTableRulesFailed
          "error creating the IP set chain \"SM-GN-BGWHJO2W6GOSY7WZGE6TEOXFM\": ipset: kernel error"] ∧
      r.obj.Status.Conditions.length = 1 := by
  refine ⟨_, rfl, ?_, ?_, ?_, ?_⟩ <;> decide

/-- C7 (amended): for every Create or Update with numberOfIPs >= 1, `process` returns (without
panicking), and when the creation of the IP set or the add of the egress rules failed during
it, then: `c2` being the controller at the moment `pool.Allocate` is called, the allocation of
`ips` succeeded and was followed either by the failed creation of the IP set and the release of
exactly `ips` (no remove of a rule is attempted), or by the creation of the IP set, the failed
add, the remove of the same rule (pod variant iff podSelector is set, same key, IP-set name and
SNAT target) and the release of exactly `ips`; the release succeeded and the pool is again the
pool `c2` had (same reserved set); `status.allocatedIPs` is empty; requeue=true; and the
condition Allocated=False / ProgramIPTableRulesFailed carrying the error is recorded: with
`g1.Status.Conditions` the conditions at that point (those of the object, after the check of
the pod selector by `createPodWatcher`), it is appended to them, unless their most recent
condition of type Allocated is already this very condition, in which case they are unchanged;
either way it is the most recent condition afterwards. -/
theorem process_program_failed_rollback (env : Env) (c : Controller) (g : GlobalEgressIP)
    (nr : Int) (op : Operation) (hop : op = Operation.Create ∨ op = Operation.Update)
    (hn : 1 ≤ specNumberOfIPs g) :
    ∃ r, process env c g nr op = some r ∧
      ((∃ ev ∈ newCalls c r.ctl,
          ((∃ rule, ev.call = Call.AddEgressRules rule) ∨
            (∃ name b, ev.call = Call.ipSetCreate name b)) ∧ ev.err ≠ none) →
        ∃ c1 g1 nis c2 ips p1 snat msg,
          createPodWatcher env c (MetaNamespaceKeyFunc g) g = (c1, g1, some nis) ∧
          flushGlobalEgressRulesAndReleaseIPs env c1 (MetaNamespaceKeyFunc g) nis.Name nr g1 =
            some (c2, false) ∧
          c2.pool.Allocate (specNumberOfIPs g) = some (ips, p1) ∧
          getTargetSNATIPaddress ips = some snat ∧
          ((∃ e, msg = "error creating the IP set chain " ++ goQuote nis.Name ++ ": " ++ e ∧
              r.ctl.trace = c2.trace ++
                [⟨Call.poolAllocate (specNumberOfIPs g), none⟩,
                 ⟨Call.ipSetCreate nis.Name true, some e⟩,
                 ⟨Call.poolRelease ips, none⟩]) ∨
           (∃ e2, r.ctl.trace = c2.trace ++
                [⟨Call.poolAllocate (specNumberOfIPs g), none⟩,
                 ⟨Call.ipSetCreate nis.Name true, none⟩,
                 ⟨Call.AddEgressRules
                    { scope := if g.Spec.PodSelector.isSome then RuleScope.Pods
                               else RuleScope.Namespace
                      key := MetaNamespaceKeyFunc g
                      ipSetName := getIPSetName env (MetaNamespaceKeyFunc g)
                      snatIP := snat
                      mark := env.globalNetIPTableMark }, some msg⟩,
                 ⟨Call.RemoveEgressRules
                    { scope := if g.Spec.PodSelector.isSome then RuleScope.Pods
                               else RuleScope.Namespace
                      key := MetaNamespaceKeyFunc g
                      ipSetName := getIPSetName env (MetaNamespaceKeyFunc g)
                      snatIP := snat
                      mark := env.globalNetIPTableMark }, e2⟩,
                 ⟨Call.poolRelease ips, none⟩])) ∧
          r.ctl.pool = c2.pool ∧ r.ctl.pool.reserved = c2.pool.reserved ∧
          r.requeue = true ∧ r.obj.Status.AllocatedIPs = [] ∧
          g.Status.Conditions <+: g1.Status.Conditions ∧
          ((∀ pw0, c.podWatchers.lookup (MetaNamespaceKeyFunc g) = some pw0 →
              pw0.podSelector = g.Spec.PodSelector) →
            g1.Status.Conditions = g.Status.Conditions) ∧
          (lastOfType g1.Status.Conditions GlobalEgressIPAllocated ≠
              some (condProgramIPTableRulesFailed msg) →
            r.obj.Status.Conditions =
              g1.Status.Conditions ++ [condProgramIPTableRulesFailed msg]) ∧
          (lastOfType g1.Status.Conditions GlobalEgressIPAllocated =
              some (condProgramIPTableRulesFailed msg) →
            r.obj.Status.Conditions = g1.Status.Conditions) ∧
          lastOfType r.obj.Status.Conditions GlobalEgressIPAllocated =
            some (condProgramIPTableRulesFailed msg) ∧
          (condProgramIPTableRulesFailed msg).type = GlobalEgressIPAllocated ∧
          (condProgramIPTableRulesFailed msg).status = ConditionStatus.ConditionFalse ∧
          (condProgramIPTableRulesFailed msg).reason = "ProgramIPTableRulesFailed" ∧
          (condProgramIPTableRulesFailed msg).message =
            "Error programming egress rules: " ++ msg) := by
  obtain ⟨c3, g3, rq, hres, himp⟩ := onCreateOrUpdate_program_failed_object env c
    (MetaNamespaceKeyFunc g) (specNumberOfIPs g) g nr hn
  rw [process_createOrUpdate_pos env c g nr op (ne_delete_of_createOrUpdate hop) hn, hres]
  refine ⟨_, rfl, ?_⟩
  intro hfail
  obtain ⟨c1, g1, nis, c2, ips, p1, snat, msg, h1, h2, h3, h4, h5, h6, _, h8, h9, h10, h11⟩ :=
    himp hfail
  have he := tryAppend_exact g1.Status.Conditions (condProgramIPTableRulesFailed msg)
  have hc := tryAppend_cases g1.Status.Conditions (condProgramIPTableRulesFailed msg)
  simp only [] at h9 ⊢
  subst h9
  refine ⟨c1, g1, nis, c2, ips, p1, snat, msg, h1, h2, h3, h4, h5, h6, by rw [h6], h8, rfl,
    h10, ?_, he.2, he.1, hc.2, rfl, rfl, rfl, rfl⟩
  intro hsel
  rw [h11 hsel]

/-- Witness for C7 (amended): `ns/a` with a pod selector asks for 2 addresses and the
packet-filter driver rejects the add. -/
theorem process_program_failed_rollback_witness :
    ∃ r, process addFailsEnv (exampleController ["10.0.0.1"] [])
        (exampleObject (some 2) (some { matchLabels := [("app", "db")] }) [] []) 0
        Operation.Create = some r ∧
      (∃ ev ∈ newCalls (exampleController ["10.0.0.1"] []) r.ctl,
        ((∃ rule, ev.call = Call.AddEgressRules rule) ∨
          (∃ name b, ev.call = Call.ipSetCreate name b)) ∧ ev.err ≠ none) ∧
      r.ctl.pool.reserved = (exampleController ["10.0.0.1"] []).pool.reserved ∧
      r.requeue = true ∧ r.obj.Status.AllocatedIPs = [] ∧
      ∃ msg, r.obj.Status.Conditions = [condProgramIPTableRulesFailed msg] := by
  obtain ⟨r, hr, himp⟩ := process_program_failed_rollback addFailsEnv
    (exampleController ["10.0.0.1"] [])
    (exampleObject (some 2) (some { matchLabels := [("app", "db")] }) [] []) 0
    Operation.Create (Or.inl rfl) (by decide)
  have hev : ∃ r0, process addFailsEnv (exampleController ["10.0.0.1"] [])
      (exampleObject (some 2) (some { matchLabels := [("app", "db")] }) [] []) 0
      Operation.Create = some r0 ∧
      (⟨Call.AddEgressRules
          { scope := RuleScope.Pods
            key := "ns/a"
            ipSetName := "SM-GN-BGWHJO2W6GOSY7WZGE6TEOXFM"
            snatIP := "10.0.0.2-10.0.0.3"
            mark := "0xC0000/0xC0000" },
        some "iptables: resource temporarily unavailable"⟩ : Event) ∈
        newCalls (exampleController ["10.0.0.1"] []) r0.ctl ∧
      r0.ctl.pool.reserved = (exampleController ["10.0.0.1"] []).pool.reserved :=
    ⟨_, rfl, by decide, by decide⟩
  obtain ⟨r0, hr0, hm, hpool⟩ := hev
  rw [hr] at hr0
  cases hr0
  have hfail : ∃ ev ∈ newCalls (exampleController ["10.0.0.1"] []) r.ctl,
      ((∃ rule, ev.call = Call.AddEgressRules rule) ∨
        (∃ name b, ev.call = Call.ipSetCreate name b)) ∧ ev.err ≠ none :=
    ⟨_, hm, Or.inl ⟨_, rfl⟩, by simp⟩
  obtain ⟨_, g1, _, _, _, _, _, msg, _, _, _, _, _, _, _, h8, h9, _, hsame, happ, _⟩ :=
    himp hfail
  have hp : g1.Status.Conditions = [] := hsame (by
    intro pw0 h
    cases h)
  rw [hp] at happ
  exact ⟨r, hr, hfail, hpool, h8, h9, msg, happ (by simp [lastOfType])⟩

/-! ## The IP-set name -/

theorem SHA256.sum256_length (msg : List Nat) : (SHA256.sum256 msg).length = 32 := by
  simp [SHA256.sum256, SHA256.wordBytes]

theorem Base32.alphabet_getD_mem : ∀ k, k < 32 → Base32.alphabet.getD k '=' ∈ Base32.alphabet := by
  decide

theorem Base32.encodeGroup_full (bs : List Nat) (h : bs.length = 5) :
    (Base32.encodeGroup bs).length = 8 ∧ ∀ ch ∈ Base32.encodeGroup bs, ch ∈ Base32.alphabet := by
  unfold Base32.encodeGroup
  simp only [h, Base32.groupChars]
  refine ⟨by simp, ?_⟩
  intro ch hch
  simp only [Nat.sub_self, List.replicate_zero, List.append_nil] at hch
  obtain ⟨i, _, hi⟩ := List.mem_map.mp (List.mem_of_mem_take hch)
  rw [← hi]
  exact Base32.alphabet_getD_mem _ (Nat.mod_lt _ (by decide))

/-- The first `k` groups of the encoding of at least `5 * k` bytes are full groups. -/
theorem Base32.encode_full_groups (k : Nat) :
    ∀ (n : Nat) (bs : List Nat), k ≤ n → 5 * k ≤ bs.length →
      ∃ pre rest, Base32.encode n bs = pre ++ rest ∧ pre.length = 8 * k ∧
        ∀ ch ∈ pre, ch ∈ Base32.alphabet := by
  induction k with
  | zero =>
    intro n bs _ _
    exact ⟨[], Base32.encode n bs, rfl, rfl, fun _ h => by cases h⟩
  | succ k ih =>
    intro n bs hn hlen
    cases n with
    | zero => omega
    | succ n =>
      have htake : (bs.take 5).length = 5 := by
        rw [List.length_take]
        omega
      obtain ⟨hg1, hg2⟩ := Base32.encodeGroup_full (bs.take 5) htake
      obtain ⟨pre, rest, he, hl, hm⟩ := ih n (bs.drop 5) (by omega) (by
        rw [List.length_drop]
        omega)
      refine ⟨Base32.encodeGroup (bs.take 5) ++ pre, rest, ?_, ?_, ?_⟩
      · simp only [Base32.encode, he, List.append_assoc]
      · rw [List.length_append, hg1, hl]
        omega
      · intro ch hch
        rcases List.mem_append.mp hch with h | h
        · exact hg2 ch h
        · exact hm ch h

/-- C8 (counterexample): the IP-set name of the key `ns/a` is not lowercased: the part after
the prefix contains upper-case letters, so the name differs from its lowercased form. -/
theorem getIPSetName_not_lowercased :
    getIPSetName exampleEnv "ns/a" = "SM-GN-BGWHJO2W6GOSY7WZGE6TEOXFM" ∧
    ((getIPSetName exampleEnv "ns/a").toList.drop exampleEnv.IPSetPrefix.length).any
      Char.isUpper = true ∧
    (getIPSetName exampleEnv "ns/a").toList ≠
      (getIPSetName exampleEnv "ns/a").toList.map Char.toLower := by
  refine ⟨?_, ?_, ?_⟩ <;> decide

/-- C8 (amended): for every key the derived IP-set name is the fixed prefix followed by the
first 25 characters of the Base-32 encoding of SHA-256(key), as they are (not lowercased):
these are exactly 25 characters of the alphabet `A`-`Z`, `2`-`7`, and the name depends on the
key and the prefix only. -/
theorem getIPSetName_spec (env : Env) (key : String) :
    getIPSetName env key = env.IPSetPrefix ++
      String.mk ((Base32.EncodeToString (SHA256.sum256 (stringBytes key))).toList.take 25) ∧
    ((Base32.EncodeToString (SHA256.sum256 (stringBytes key))).toList.take 25).length = 25 ∧
    (∀ ch ∈ (Base32.EncodeToString (SHA256.sum256 (stringBytes key))).toList.take 25,
      ch ∈ Base32.alphabet ∧ ch.isLower = false) ∧
    (∀ env2 : Env, env2.IPSetPrefix = env.IPSetPrefix →
      getIPSetName env2 key = getIPSetName env key) := by
  have hlen := SHA256.sum256_length (stringBytes key)
  obtain ⟨pre, rest, he, hl, hm⟩ := Base32.encode_full_groups 4
    (((SHA256.sum256 (stringBytes key)).length + 4) / 5) (SHA256.sum256 (stringBytes key))
    (by rw [hlen]; decide) (by rw [hlen]; decide)
  have hlow : ∀ ch ∈ Base32.alphabet, ch.isLower = false := by
    decide
  have htake : (Base32.EncodeToString (SHA256.sum256 (stringBytes key))).toList.take 25 =
      pre.take 25 := by
    unfold Base32.EncodeToString
    simp only [he]
    exact List.take_append_of_le_length (by omega)
  refine ⟨rfl, ?_, ?_, ?_⟩
  · rw [htake, List.length_take]
    omega
  · intro ch hch
    rw [htake] at hch
    have h := hm ch (List.mem_of_mem_take hch)
    exact ⟨h, hlow ch h⟩
  · intro env2 h2
    unfold getIPSetName
    rw [h2]

/-! ## The claims about the endpoint sync handler -/

namespace kubeproxy

/-- C11: in every handler state whose recorded timestamp for the endpoint's cluster is strictly
later than the creation timestamp of the incoming remote endpoint, `RemoteEndpointCreated`
returns nil and leaves the handler as it was (in particular `remoteSubnets`, `remoteSubnetGw`
and the recorded timestamps). -/
theorem RemoteEndpointCreated_stale (env : HandlerEnv) (kp : SyncHandler) (endpoint : Endpoint)
    (lastSeen : Int) (hrec : kp.remoteEndpointTimeStamp endpoint.ClusterID = some lastSeen)
    (hlater : endpoint.CreationTimestamp < lastSeen) :
    RemoteEndpointCreated env kp endpoint = (kp, none) ∧
    (RemoteEndpointCreated env kp endpoint).1.remoteSubnets = kp.remoteSubnets ∧
    (RemoteEndpointCreated env kp endpoint).1.remoteSubnetGw = kp.remoteSubnetGw ∧
    (RemoteEndpointCreated env kp endpoint).1.remoteEndpointTimeStamp =
      kp.remoteEndpointTimeStamp := by
  have hstale : laterEndpointProcessed kp endpoint = true := by
    unfold laterEndpointProcessed
    rw [hrec]
    simpa using hlater
  have hres : RemoteEndpointCreated env kp endpoint = (kp, none) := by
    unfold RemoteEndpointCreated
    cases env.OverlappingSubnets kp.localServiceCidr kp.localClusterCidr endpoint.Subnets with
    | some e => rfl
    | none => simp only [hstale, if_true]
  rw [hres]
  exact ⟨rfl, rfl, rfl, rfl⟩

/-- Witness for C11: scenario 5 of the spec. After `Created(X, [10.1.0.0/16], 2)` the
notification `Created(X, [10.2.0.0/16], 1)` is ignored. -/
theorem RemoteEndpointCreated_stale_witness :
    (RemoteEndpointCreated exampleHandlerEnv exampleHandler
        (exampleEndpoint ["10.1.0.0/16"] "192.168.1.1" 2)).1.remoteEndpointTimeStamp "X" =
      some 2 ∧
    (RemoteEndpointCreated exampleHandlerEnv
        (RemoteEndpointCreated exampleHandlerEnv exampleHandler
          (exampleEndpoint ["10.1.0.0/16"] "192.168.1.1" 2)).1
        (exampleEndpoint ["10.2.0.0/16"] "192.168.1.2" 1)).1.remoteSubnets =
      {"10.1.0.0/16"} ∧
    RemoteEndpointCreated exampleHandlerEnv
        (RemoteEndpointCreated exampleHandlerEnv exampleHandler
          (exampleEndpoint ["10.1.0.0/16"] "192.168.1.1" 2)).1
        (exampleEndpoint ["10.2.0.0/16"] "192.168.1.2" 1) =
      ((RemoteEndpointCreated exampleHandlerEnv exampleHandler
          (exampleEndpoint ["10.1.0.0/16"] "192.168.1.1" 2)).1, none) := by
  have hrec : (RemoteEndpointCreated exampleHandlerEnv exampleHandler
      (exampleEndpoint ["10.1.0.0/16"] "192.168.1.1" 2)).1.remoteEndpointTimeStamp
        (exampleEndpoint ["10.2.0.0/16"] "192.168.1.2" 1).ClusterID = some 2 := by
    decide
  have h := RemoteEndpointCreated_stale exampleHandlerEnv
    (RemoteEndpointCreated exampleHandlerEnv exampleHandler
      (exampleEndpoint ["10.1.0.0/16"] "192.168.1.1" 2)).1
    (exampleEndpoint ["10.2.0.0/16"] "192.168.1.2" 1) 2 hrec (by decide)
  refine ⟨hrec, ?_, h.1⟩
  rw [h.2.1]
  decide

/-! ### Effect of the loops over the subnets -/

theorem foldl_addRemoteSubnet (gwIP : String) (subnets : List String) :
    ∀ kp : SyncHandler,
      (subnets.foldl (addRemoteSubnet gwIP) kp).remoteSubnets =
        kp.remoteSubnets ∪ subnets.toFinset ∧
      (subnets.foldl (addRemoteSubnet gwIP) kp).remoteSubnetGw =
        (fun cidr => if cidr ∈ subnets then some gwIP else kp.remoteSubnetGw cidr) ∧
      (subnets.foldl (addRemoteSubnet gwIP) kp).gwIPs = kp.gwIPs ∧
      (subnets.foldl (addRemoteSubnet gwIP) kp).remoteEndpointTimeStamp =
        kp.remoteEndpointTimeStamp ∧
      (subnets.foldl (addRemoteSubnet gwIP) kp).trace = kp.trace := by
  induction subnets with
  | nil =>
    intro kp
    simp
  | cons a rest ih =>
    intro kp
    obtain ⟨h1, h2, h3, h4, h5⟩ := ih (addRemoteSubnet gwIP kp a)
    simp only [List.foldl_cons]
    refine ⟨?_, ?_, h3, h4, h5⟩
    · rw [h1]
      ext x
      by_cases ha : a ∈ kp.remoteSubnets
      · simp only [addRemoteSubnet, ha, if_true, Finset.mem_union, List.mem_toFinset,
          List.mem_cons]
        constructor
        · rintro (h | h)
          · exact Or.inl h
          · exact Or.inr (Or.inr h)
        · rintro (h | h | h)
          · exact Or.inl h
          · exact Or.inl (h ▸ ha)
          · exact Or.inr h
      · simp only [addRemoteSubnet, ha, if_false, Finset.mem_union, Finset.mem_insert,
          List.mem_toFinset, List.mem_cons]
        tauto
    · rw [h2]
      funext cidr
      by_cases hc : cidr ∈ rest
      · simp [hc]
      · by_cases hca : cidr = a
        · subst hca
          simp [hc, addRemoteSubnet]
        · simp [hc, hca, addRemoteSubnet, Function.update]

theorem foldl_removeRemoteSubnet (subnets : List String) :
    ∀ kp : SyncHandler,
      (subnets.foldl removeRemoteSubnet kp).remoteSubnets =
        kp.remoteSubnets \ subnets.toFinset ∧
      (subnets.foldl removeRemoteSubnet kp).remoteSubnetGw =
        (fun cidr => if cidr ∈ subnets then none else kp.remoteSubnetGw cidr) ∧
      (subnets.foldl removeRemoteSubnet kp).gwIPs = kp.gwIPs ∧
      (subnets.foldl removeRemoteSubnet kp).remoteEndpointTimeStamp =
        kp.remoteEndpointTimeStamp ∧
      (subnets.foldl removeRemoteSubnet kp).trace = kp.trace := by
  induction subnets with
  | nil =>
    intro kp
    simp
  | cons a rest ih =>
    intro kp
    obtain ⟨h1, h2, h3, h4, h5⟩ := ih (removeRemoteSubnet kp a)
    simp only [List.foldl_cons]
    refine ⟨?_, ?_, h3, h4, h5⟩
    · rw [h1]
      ext x
      simp only [removeRemoteSubnet, Finset.mem_sdiff, Finset.mem_erase, List.mem_toFinset,
        List.mem_cons]
      tauto
    · rw [h2]
      funext cidr
      by_cases hc : cidr ∈ rest
      · simp [hc]
      · by_cases hca : cidr = a
        · subst hca
          simp [hc, removeRemoteSubnet]
        · simp [hc, hca, removeRemoteSubnet, Function.update]

@[simp] theorem SyncHandler.log_remoteSubnets (kp : SyncHandler) (call : RouteCall)
    (err : Option String) : (kp.log call err).remoteSubnets = kp.remoteSubnets := rfl

@[simp] theorem SyncHandler.log_remoteSubnetGw (kp : SyncHandler) (call : RouteCall)
    (err : Option String) : (kp.log call err).remoteSubnetGw = kp.remoteSubnetGw := rfl

@[simp] theorem SyncHandler.log_gwIPs (kp : SyncHandler) (call : RouteCall)
    (err : Option String) : (kp.log call err).gwIPs = kp.gwIPs := rfl

@[simp] theorem SyncHandler.log_remoteEndpointTimeStamp (kp : SyncHandler) (call : RouteCall)
    (err : Option String) :
    (kp.log call err).remoteEndpointTimeStamp = kp.remoteEndpointTimeStamp := rfl

theorem RemoteEndpointRemoved_stale (env : HandlerEnv) (kp : SyncHandler) (endpoint : Endpoint)
    (h : laterEndpointProcessed kp endpoint = true) :
    RemoteEndpointRemoved env kp endpoint = (kp, none) := by
  unfold RemoteEndpointRemoved
  simp only [h, if_true]

/-- The handler after a `RemoteEndpointRemoved` that is not ignored. -/
theorem RemoteEndpointRemoved_fields (env : HandlerEnv) (kp : SyncHandler) (endpoint : Endpoint)
    (h : laterEndpointProcessed kp endpoint = false) :
    (RemoteEndpointRemoved env kp endpoint).1.remoteSubnets =
      kp.remoteSubnets \ endpoint.Subnets.toFinset ∧
    (RemoteEndpointRemoved env kp endpoint).1.remoteSubnetGw =
      (fun cidr => if cidr ∈ endpoint.Subnets then none else kp.remoteSubnetGw cidr) ∧
    (RemoteEndpointRemoved env kp endpoint).1.gwIPs = kp.gwIPs ∧
    (RemoteEndpointRemoved env kp endpoint).1.remoteEndpointTimeStamp =
      Function.update kp.remoteEndpointTimeStamp endpoint.ClusterID none := by
  obtain ⟨h1, h2, h3, h4, _⟩ := foldl_removeRemoteSubnet endpoint.Subnets
    { kp with remoteEndpointTimeStamp :=
        Function.update kp.remoteEndpointTimeStamp endpoint.ClusterID none }
  unfold RemoteEndpointRemoved
  simp only [h, Bool.false_eq_true, if_false]
  split <;> exact ⟨h1, h2, h3, h4⟩

/-- The handler after a `RemoteEndpointCreated` that is not ignored. -/
theorem RemoteEndpointCreated_fields (env : HandlerEnv) (kp : SyncHandler) (endpoint : Endpoint)
    (hov : env.OverlappingSubnets kp.localServiceCidr kp.localClusterCidr endpoint.Subnets =
      none)
    (h : laterEndpointProcessed kp endpoint = false) :
    (RemoteEndpointCreated env kp endpoint).1.remoteSubnets =
      kp.remoteSubnets ∪ endpoint.Subnets.toFinset ∧
    (RemoteEndpointCreated env kp endpoint).1.remoteSubnetGw =
      (fun cidr => if cidr ∈ endpoint.Subnets then some (env.GatewayIP endpoint)
        else kp.remoteSubnetGw cidr) ∧
    (RemoteEndpointCreated env kp endpoint).1.gwIPs = kp.gwIPs ∧
    ((RemoteEndpointCreated env kp endpoint).1.remoteEndpointTimeStamp =
        kp.remoteEndpointTimeStamp ∨
      (RemoteEndpointCreated env kp endpoint).1.remoteEndpointTimeStamp =
        Function.update kp.remoteEndpointTimeStamp endpoint.ClusterID
          (some endpoint.CreationTimestamp)) := by
  obtain ⟨h1, h2, h3, h4, _⟩ := foldl_addRemoteSubnet (env.GatewayIP endpoint) endpoint.Subnets kp
  unfold RemoteEndpointCreated
  simp only [hov, h, Bool.false_eq_true, if_false]
  split
  · exact ⟨h1, h2, h3, Or.inl h4⟩
  · refine ⟨h1, h2, h3, Or.inr ?_⟩
    simp only [SyncHandler.log_remoteEndpointTimeStamp, h4]

/-- What `RemoteEndpointCreated` does in all cases: it ignores the endpoint or processes it. -/
theorem RemoteEndpointCreated_cases (env : HandlerEnv) (kp : SyncHandler) (endpoint : Endpoint) :
    RemoteEndpointCreated env kp endpoint = (kp, none) ∨
    (env.OverlappingSubnets kp.localServiceCidr kp.localClusterCidr endpoint.Subnets = none ∧
      laterEndpointProcessed kp endpoint = false) := by
  cases hov : env.OverlappingSubnets kp.localServiceCidr kp.localClusterCidr
      endpoint.Subnets with
  | some e =>
    left
    unfold RemoteEndpointCreated
    rw [hov]
  | none =>
    cases hs : laterEndpointProcessed kp endpoint with
    | true =>
      left
      unfold RemoteEndpointCreated
      simp only [hov, hs, if_true]
    | false => exact Or.inr ⟨rfl, rfl⟩

theorem laterEndpointProcessed_of_timestamps (kp kp2 : SyncHandler) (endpoint : Endpoint)
    (h : kp2.remoteEndpointTimeStamp endpoint.ClusterID =
      kp.remoteEndpointTimeStamp endpoint.ClusterID) :
    laterEndpointProcessed kp2 endpoint = laterEndpointProcessed kp endpoint := by
  unfold laterEndpointProcessed
  rw [h]

/-- C12 (counterexample): cluster `X` already has an endpoint with subnet `10.1.0.0/16`
(gateway `192.168.1.1`, created at 1). Adding and then removing a newer endpoint of the same
cluster with the same subnet (gateway `192.168.1.2`, created at 2), both calls returning nil,
leaves `remoteSubnets` empty and the subnet without gateway, unlike before the add. -/
theorem RemoteEndpoint_add_remove_not_restored :
    (RemoteEndpointCreated exampleHandlerEnv exampleHandler
        (exampleEndpoint ["10.1.0.0/16"] "192.168.1.1" 1)).1.remoteSubnets = {"10.1.0.0/16"} ∧
    (RemoteEndpointCreated exampleHandlerEnv exampleHandler
        (exampleEndpoint ["10.1.0.0/16"] "192.168.1.1" 1)).1.remoteSubnetGw "10.1.0.0/16" =
      some "192.168.1.1" ∧
    (RemoteEndpointCreated exampleHandlerEnv
        (RemoteEndpointCreated exampleHandlerEnv exampleHandler
          (exampleEndpoint ["10.1.0.0/16"] "192.168.1.1" 1)).1
        (exampleEndpoint ["10.1.0.0/16"] "192.168.1.2" 2)).2 = none ∧
    (RemoteEndpointRemoved exampleHandlerEnv
        (RemoteEndpointCreated exampleHandlerEnv
          (RemoteEndpointCreated exampleHandlerEnv exampleHandler
            (exampleEndpoint ["10.1.0.0/16"] "192.168.1.1" 1)).1
          (exampleEndpoint ["10.1.0.0/16"] "192.168.1.2" 2)).1
        (exampleEndpoint ["10.1.0.0/16"] "192.168.1.2" 2)).2 = none ∧
    (RemoteEndpointRemoved exampleHandlerEnv
        (RemoteEndpointCreated exampleHandlerEnv
          (RemoteEndpointCreated exampleHandlerEnv exampleHandler
            (exampleEndpoint ["10.1.0.0/16"] "192.168.1.1" 1)).1
          (exampleEndpoint ["10.1.0.0/16"] "192.168.1.2" 2)).1
        (exampleEndpoint ["10.1.0.0/16"] "192.168.1.2" 2)).1.remoteSubnets = ∅ ∧
    (RemoteEndpointRemoved exampleHandlerEnv
        (RemoteEndpointCreated exampleHandlerEnv
          (RemoteEndpointCreated exampleHandlerEnv exampleHandler
            (exampleEndpoint ["10.1.0.0/16"] "192.168.1.1" 1)).1
          (exampleEndpoint ["10.1.0.0/16"] "192.168.1.2" 2)).1
        (exampleEndpoint ["10.1.0.0/16"] "192.168.1.2" 2)).1.remoteSubnetGw "10.1.0.0/16" =
      none := by
  refine ⟨?_, ?_, ?_, ?_, ?_, ?_⟩ <;> decide

/-- C12 (amended): for every handler state and remote endpoint such that the endpoint is stale
for the handler (a later endpoint of its cluster was already processed) or none of its subnets
is present in `remoteSubnets` or `remoteSubnetGw` before the add, `RemoteEndpointCreated`
followed by `RemoteEndpointRemoved` of the same endpoint (whatever the routing updates return,
in particular when both calls succeed) leaves `gwIPs`, `remoteSubnets` and `remoteSubnetGw`
identical to what they were before the add. -/
theorem RemoteEndpoint_add_remove_restores (env : HandlerEnv) (kp : SyncHandler)
    (endpoint : Endpoint)
    (h : laterEndpointProcessed kp endpoint = true ∨
      ∀ cidr ∈ endpoint.Subnets, cidr ∉ kp.remoteSubnets ∧ kp.remoteSubnetGw cidr = none) :
    (RemoteEndpointRemoved env (RemoteEndpointCreated env kp endpoint).1 endpoint).1.gwIPs =
      kp.gwIPs ∧
    (RemoteEndpointRemoved env (RemoteEndpointCreated env kp endpoint).1
        endpoint).1.remoteSubnets = kp.remoteSubnets ∧
    (RemoteEndpointRemoved env (RemoteEndpointCreated env kp endpoint).1
        endpoint).1.remoteSubnetGw = kp.remoteSubnetGw := by
  have fresh_sdiff : (∀ cidr ∈ endpoint.Subnets,
      cidr ∉ kp.remoteSubnets ∧ kp.remoteSubnetGw cidr = none) →
      kp.remoteSubnets \ endpoint.Subnets.toFinset = kp.remoteSubnets ∧
      (kp.remoteSubnets ∪ endpoint.Subnets.toFinset) \ endpoint.Subnets.toFinset =
        kp.remoteSubnets := by
    intro hf
    have hdisj : Disjoint kp.remoteSubnets endpoint.Subnets.toFinset := by
      rw [Finset.disjoint_left]
      intro x hx hx2
      exact (hf x (List.mem_toFinset.mp hx2)).1 hx
    exact ⟨Finset.sdiff_eq_self_of_disjoint hdisj, Finset.union_sdiff_cancel_right hdisj⟩
  rcases RemoteEndpointCreated_cases env kp endpoint with hc | ⟨hov, hns⟩
  · -- the add was ignored
    rw [hc]
    cases hs : laterEndpointProcessed kp endpoint with
    | true =>
      rw [RemoteEndpointRemoved_stale env kp endpoint hs]
      exact ⟨rfl, rfl, rfl⟩
    | false =>
      have hf : ∀ cidr ∈ endpoint.Subnets,
          cidr ∉ kp.remoteSubnets ∧ kp.remoteSubnetGw cidr = none := by
        rcases h with h | h
        · rw [hs] at h
          cases h
        · exact h
      obtain ⟨r1, r2, r3, _⟩ := RemoteEndpointRemoved_fields env kp endpoint hs
      refine ⟨r3, ?_, ?_⟩
      · rw [r1]
        exact (fresh_sdiff hf).1
      · rw [r2]
        funext cidr
        by_cases hm : cidr ∈ endpoint.Subnets
        · simp [hm, (hf cidr hm).2]
        · simp [hm]
  · -- the add was processed
    have hf : ∀ cidr ∈ endpoint.Subnets,
        cidr ∉ kp.remoteSubnets ∧ kp.remoteSubnetGw cidr = none := by
      rcases h with h | h
      · rw [hns] at h
        cases h
      · exact h
    obtain ⟨c1, c2, c3, c4⟩ := RemoteEndpointCreated_fields env kp endpoint hov hns
    have hs2 : laterEndpointProcessed (RemoteEndpointCreated env kp endpoint).1 endpoint =
        false := by
      rcases c4 with c4 | c4
      · rw [laterEndpointProcessed_of_timestamps kp _ endpoint (by rw [c4])]
        exact hns
      · unfold laterEndpointProcessed
        rw [c4]
        simp
    obtain ⟨r1, r2, r3, _⟩ := RemoteEndpointRemoved_fields env
      (RemoteEndpointCreated env kp endpoint).1 endpoint hs2
    refine ⟨r3.trans c3, ?_, ?_⟩
    · rw [r1, c1]
      exact (fresh_sdiff hf).2
    · rw [r2, c2]
      funext cidr
      by_cases hm : cidr ∈ endpoint.Subnets
      · simp [hm, (hf cidr hm).2]
      · simp [hm]

/-- Witness for C12 (amended): a first endpoint of cluster `X` is added to the empty handler
and removed again. -/
theorem RemoteEndpoint_add_remove_restores_witness :
    (RemoteEndpointCreated exampleHandlerEnv exampleHandler
        (exampleEndpoint ["10.1.0.0/16", "10.2.0.0/16"] "192.168.1.1" 1)).2 = none ∧
    (RemoteEndpointRemoved exampleHandlerEnv
        (RemoteEndpointCreated exampleHandlerEnv exampleHandler
          (exampleEndpoint ["10.1.0.0/16", "10.2.0.0/16"] "192.168.1.1" 1)).1
        (exampleEndpoint ["10.1.0.0/16", "10.2.0.0/16"] "192.168.1.1" 1)).2 = none ∧
    (RemoteEndpointRemoved exampleHandlerEnv
        (RemoteEndpointCreated exampleHandlerEnv exampleHandler
          (exampleEndpoint ["10.1.0.0/16", "10.2.0.0/16"] "192.168.1.1" 1)).1
        (exampleEndpoint ["10.1.0.0/16", "10.2.0.0/16"] "192.168.1.1" 1)).1.remoteSubnets =
      exampleHandler.remoteSubnets ∧
    (RemoteEndpointRemoved exampleHandlerEnv
        (RemoteEndpointCreated exampleHandlerEnv exampleHandler
          (exampleEndpoint ["10.1.0.0/16", "10.2.0.0/16"] "192.168.1.1" 1)).1
        (exampleEndpoint ["10.1.0.0/16", "10.2.0.0/16"] "192.168.1.1" 1)).1.remoteSubnetGw =
      exampleHandler.remoteSubnetGw :=
  ⟨by decide, by decide,
    (RemoteEndpoint_add_remove_restores exampleHandlerEnv exampleHandler
      (exampleEndpoint ["10.1.0.0/16", "10.2.0.0/16"] "192.168.1.1" 1)
      (Or.inr (fun cidr _ => ⟨Finset.not_mem_empty cidr, rfl⟩))).2.1,
    (RemoteEndpoint_add_remove_restores exampleHandlerEnv exampleHandler
      (exampleEndpoint ["10.1.0.0/16", "10.2.0.0/16"] "192.168.1.1" 1)
      (Or.inr (fun cidr _ => ⟨Finset.not_mem_empty cidr, rfl⟩))).2.2⟩

/-- One notification never replaces a recorded timestamp by an earlier one. -/
theorem step_timestamp_le (env : HandlerEnv) (kp : SyncHandler) (ev : RemoteEvent)
    (clusterID : String) (t t2 : Int) (h : kp.remoteEndpointTimeStamp clusterID = some t)
    (h2 : (step env kp ev).remoteEndpointTimeStamp clusterID = some t2) : t ≤ t2 := by
  cases ev with
  | Created endpoint =>
    simp only [step] at h2
    rcases RemoteEndpointCreated_cases env kp endpoint with hc | ⟨hov, hns⟩
    · rw [hc, h] at h2
      cases h2
      exact le_refl _
    · obtain ⟨_, _, _, c4⟩ := RemoteEndpointCreated_fields env kp endpoint hov hns
      rcases c4 with c4 | c4
      · rw [c4, h] at h2
        cases h2
        exact le_refl _
      · rw [c4] at h2
        by_cases hid : clusterID = endpoint.ClusterID
        · subst hid
          simp only [Function.update_same, Option.some.injEq] at h2
          unfold laterEndpointProcessed at hns
          rw [h] at hns
          simp only [decide_eq_false_iff_not, not_lt] at hns
          omega
        · rw [Function.update_noteq hid, h] at h2
          cases h2
          exact le_refl _
  | Removed endpoint =>
    simp only [step] at h2
    cases hs : laterEndpointProcessed kp endpoint with
    | true =>
      rw [RemoteEndpointRemoved_stale env kp endpoint hs, h] at h2
      cases h2
      exact le_refl _
    | false =>
      obtain ⟨_, _, _, r4⟩ := RemoteEndpointRemoved_fields env kp endpoint hs
      rw [r4] at h2
      by_cases hid : clusterID = endpoint.ClusterID
      · subst hid
        simp at h2
      · rw [Function.update_noteq hid, h] at h2
        cases h2
        exact le_refl _

/-- C13 (counterexample): cluster `X` records the timestamp 2, an accepted
`RemoteEndpointRemoved` clears the record, and a `RemoteEndpointCreated` with the earlier
timestamp 1 is then recorded. -/
theorem lastSeen_decreases_after_removal :
    (run exampleHandlerEnv exampleHandler
      [RemoteEvent.Created (exampleEndpoint ["10.1.0.0/16"] "192.168.1.1" 2)]
      ).remoteEndpointTimeStamp "X" = some 2 ∧
    (run exampleHandlerEnv exampleHandler
      [RemoteEvent.Created (exampleEndpoint ["10.1.0.0/16"] "192.168.1.1" 2),
       RemoteEvent.Removed (exampleEndpoint ["10.1.0.0/16"] "192.168.1.1" 2)]
      ).remoteEndpointTimeStamp "X" = none ∧
    (run exampleHandlerEnv exampleHandler
      [RemoteEvent.Created (exampleEndpoint ["10.1.0.0/16"] "192.168.1.1" 2),
       RemoteEvent.Removed (exampleEndpoint ["10.1.0.0/16"] "192.168.1.1" 2),
       RemoteEvent.Created (exampleEndpoint ["10.1.0.0/16"] "192.168.1.2" 1)]
      ).remoteEndpointTimeStamp "X" = some 1 ∧
    (1 : Int) < 2 := by
  refine ⟨?_, ?_, ?_, ?_⟩ <;> decide

/-- C13 (amended): for every sequence of RemoteEndpointCreated / RemoteEndpointRemoved
notifications and every clusterID, as long as the record of the cluster is present after
every notification (no accepted RemoteEndpointRemoved has cleared it), the timestamp recorded
at the end is never earlier than the timestamp recorded at the start. -/
theorem lastSeen_monotone_while_recorded (env : HandlerEnv) (clusterID : String)
    (evs : List RemoteEvent) (kp : SyncHandler) (t : Int)
    (h : kp.remoteEndpointTimeStamp clusterID = some t)
    (hkept : recordKept env clusterID kp evs) :
    ∃ t2, (run env kp evs).remoteEndpointTimeStamp clusterID = some t2 ∧ t ≤ t2 := by
  induction evs generalizing kp t with
  | nil => exact ⟨t, h, le_refl _⟩
  | cons ev rest ih =>
    obtain ⟨hne, hrest⟩ := hkept
    obtain ⟨t1, ht1⟩ := Option.ne_none_iff_exists'.mp hne
    have hle := step_timestamp_le env kp ev clusterID t t1 h ht1
    obtain ⟨t2, ht2, hle2⟩ := ih (step env kp ev) t1 ht1 hrest
    exact ⟨t2, ht2, le_trans hle hle2⟩

/-- Witness for C13 (amended): after the timestamp 1 is recorded for `X`, a newer endpoint is
accepted, then a stale removal and a stale creation are ignored; the record ends at 3. -/
theorem lastSeen_monotone_while_recorded_witness :
    ∃ t2, (run exampleHandlerEnv
        (run exampleHandlerEnv exampleHandler
          [RemoteEvent.Created (exampleEndpoint ["10.1.0.0/16"] "192.168.1.1" 1)])
        [RemoteEvent.Created (exampleEndpoint ["10.1.0.0/16"] "192.168.1.2" 3),
         RemoteEvent.Removed (exampleEndpoint ["10.1.0.0/16"] "192.168.1.1" 1),
         RemoteEvent.Created (exampleEndpoint ["10.3.0.0/16"] "192.168.1.3" 2)]
      ).remoteEndpointTimeStamp "X" = some t2 ∧ (1 : Int) ≤ t2 :=
  lastSeen_monotone_while_recorded exampleHandlerEnv "X"
    [RemoteEvent.Created (exampleEndpoint ["10.1.0.0/16"] "192.168.1.2" 3),
     RemoteEvent.Removed (exampleEndpoint ["10.1.0.0/16"] "192.168.1.1" 1),
     RemoteEvent.Created (exampleEndpoint ["10.3.0.0/16"] "192.168.1.3" 2)]
    (run exampleHandlerEnv exampleHandler
      [RemoteEvent.Created (exampleEndpoint ["10.1.0.0/16"] "192.168.1.1" 1)])
    1 (by decide) (by
      refine ⟨?_, ?_, ?_, trivial⟩ <;> decide)

end kubeproxy

/-! ## The claims about the pinger -/

namespace healthchecker

theorem intOfUint_small (u : Nat) (h : u < 2 ^ 63) : intOfUint u = (u : Int) := by
  unfold intOfUint
  have h1 : u % 2 ^ 64 = u := Nat.mod_eq_of_lt (by omega)
  rw [h1, if_pos h]

/-- C14 (counterexample): with `maxPacketLossCount = 2^63` the conversion to `int` is negative,
so the send hook sets the status to Error when one packet was sent and none received, although
`1 - 0 > 2^63` is false. -/
theorem OnSend_error_below_threshold :
    (examplePinger (2 ^ 63)).stopChClosed = false ∧
    ¬ ((1 : Int) - 0 > ((examplePinger (2 ^ 63)).maxPacketLossCount : Int)) ∧
    (OnSend (examplePinger (2 ^ 63))
      { PacketsSent := 1, PacketsRecv := 0, stopped := false }).1.connectionStatus =
        ConnectionStatus.ConnectionError := by
  refine ⟨?_, ?_, ?_⟩ <;> decide

/-- C14 (amended): for every `maxPacketLossCount` below 2^63 (so that `int(maxPacketLossCount)`
is the same number) and every pair of counters: when the stop signal is not set, the send hook
sets the status to Error, with a failure message that contains the target IP, if
`sent - received > maxPacketLossCount`, and otherwise leaves the pinger (status and message
included) unchanged; when the stop signal is set, it leaves the pinger unchanged. -/
theorem OnSend_spec (p : pingerInfo) (pinger : Pinger) (hmax : p.maxPacketLossCount < 2 ^ 63) :
    (p.stopChClosed = false →
      ((pinger.PacketsSent : Int) - (pinger.PacketsRecv : Int) > (p.maxPacketLossCount : Int) →
        (OnSend p pinger).1.connectionStatus = ConnectionStatus.ConnectionError ∧
        (OnSend p pinger).1.failureMsg =
          "Failed to successfully ping the remote endpoint IP " ++ goQuote p.ip ∧
        ∃ pre post, (OnSend p pinger).1.failureMsg = pre ++ p.ip ++ post) ∧
      (¬ ((pinger.PacketsSent : Int) - (pinger.PacketsRecv : Int) >
          (p.maxPacketLossCount : Int)) →
        (OnSend p pinger).1 = p)) ∧
    (p.stopChClosed = true → (OnSend p pinger).1 = p) := by
  have hconv := intOfUint_small p.maxPacketLossCount hmax
  refine ⟨fun hopen => ⟨fun hloss => ?_, fun hloss => ?_⟩, fun hclosed => ?_⟩
  · have hres : (OnSend p pinger).1 =
        { p with
          connectionStatus := ConnectionStatus.ConnectionError
          failureMsg := "Failed to successfully ping the remote endpoint IP " ++
            goQuote p.ip } := by
      unfold OnSend
      rw [hconv]
      simp only [hopen, Bool.false_eq_true, if_false, if_pos hloss]
    rw [hres]
    refine ⟨rfl, rfl, "Failed to successfully ping the remote endpoint IP " ++ "\"", "\"", ?_⟩
    simp only [goQuote, String.append_assoc]
  · unfold OnSend
    rw [hconv]
    simp only [hopen, Bool.false_eq_true, if_false, if_neg hloss]
  · unfold OnSend
    simp only [hclosed, if_true]

/-- Witness for C14 (amended): scenario 4 of the spec; the threshold is 3, four packets were
sent and none received. -/
theorem OnSend_spec_witness :
    (examplePinger 3).stopChClosed = false ∧
    ((4 : Int) - 0 > 3) ∧
    (OnSend (examplePinger 3)
      { PacketsSent := 4, PacketsRecv := 0, stopped := false }).1.connectionStatus =
        ConnectionStatus.ConnectionError ∧
    (OnSend (examplePinger 3)
      { PacketsSent := 4, PacketsRecv := 0, stopped := false }).1.failureMsg =
        "Failed to successfully ping the remote endpoint IP \"127.0.0.1\"" := by
  have h := (OnSend_spec (examplePinger 3)
    { PacketsSent := 4, PacketsRecv := 0, stopped := false } (by decide)).1 (by decide)
  have h2 := h.1 (by decide)
  exact ⟨by decide, by decide, h2.1, h2.2.1.trans (by decide)⟩

theorem runEvents_append (p : pingerInfo) (pinger : Pinger) (evs : List ProbeEvent)
    (ev : ProbeEvent) :
    runEvents p pinger (evs ++ [ev]) =
      probeStep (runEvents p pinger evs).1 (runEvents p pinger evs).2 ev := by
  induction evs generalizing p pinger with
  | nil => rfl
  | cons e rest ih =>
    simp only [List.cons_append, runEvents]
    exact ih _ _

theorem Start_stopped (p : pingerInfo) (runs : List ProbeRun) (h : p.stopChClosed = true) :
    Start p runs = p := by
  cases runs with
  | nil => rfl
  | cons run rest =>
    unfold Start
    simp only [h, if_true]

/-- C15 (counterexample): with the threshold 3, a first probe run in which four packets get
no reply ends with the status Error (the fourth call of the send hook raises it and stops the
go-ping pinger) and `doPing` returns nil; the stop signal is never set, yet the next iteration
of the probe loop starts a new run, whose first reply sets the status to Connected. -/
theorem Start_recovers_after_error :
    (doPing (examplePinger 3)
      { newPingerErr := none, runErr := none
        events := [ProbeEvent.send 1 0, ProbeEvent.send 2 0, ProbeEvent.send 3 0,
          ProbeEvent.send 4 0] }).1.connectionStatus = ConnectionStatus.ConnectionError ∧
    (doPing (examplePinger 3)
      { newPingerErr := none, runErr := none
        events := [ProbeEvent.send 1 0, ProbeEvent.send 2 0, ProbeEvent.send 3 0,
          ProbeEvent.send 4 0] }).2 = none ∧
    (doPing (examplePinger 3)
      { newPingerErr := none, runErr := none
        events := [ProbeEvent.send 1 0, ProbeEvent.send 2 0, ProbeEvent.send 3 0,
          ProbeEvent.send 4 0] }).1.stopChClosed = false ∧
    (Start (examplePinger 3)
      [{ newPingerErr := none, runErr := none
         events := [ProbeEvent.send 1 0, ProbeEvent.send 2 0, ProbeEvent.send 3 0,
           ProbeEvent.send 4 0] },
       { newPingerErr := none, runErr := none
         events := [ProbeEvent.send 1 0, ProbeEvent.recv 250000] }]).connectionStatus =
        ConnectionStatus.Connected ∧
    (Start (examplePinger 3)
      [{ newPingerErr := none, runErr := none
         events := [ProbeEvent.send 1 0, ProbeEvent.send 2 0, ProbeEvent.send 3 0,
           ProbeEvent.send 4 0] },
       { newPingerErr := none, runErr := none
         events := [ProbeEvent.send 1 0, ProbeEvent.recv 250000] }]).stopChClosed = false := by
  refine ⟨?_, ?_, ?_, ?_, ?_⟩ <;> decide

/-- C15 (amended): Error is not terminal for the pinger; of its steps only the send hook
preserves it. (1) The send hook called with the status Error leaves the status Error; when it
raises Error (stop signal not set, `sent - received > int(maxPacketLossCount)`) it calls
`pinger.Stop()` on the go-ping pinger of the current run and leaves the stop signal unset.
(2) The receive hook sets the status to Connected whatever the status was, Error included; so
a `doPing` whose pinger is created and runs without error, and whose last event is a reply,
ends with the status Connected and returns nil, whatever the status at its start. (3) As long
as the stop signal is not set, the probe loop of `Start` calls `doPing` again after every
`doPing` that returned nil, whatever the status that run left: no external Stop/Start is
needed. (4) The loop ends when `doPing` returns an error, and once the stop signal is set no
iteration starts a run or changes the `pingerInfo`. -/
theorem error_not_terminal (p : pingerInfo) (pinger : Pinger) (rtt : Nat)
    (evs : List ProbeEvent) (run : ProbeRun) (runs : List ProbeRun) :
    (p.connectionStatus = ConnectionStatus.ConnectionError →
      (OnSend p pinger).1.connectionStatus = ConnectionStatus.ConnectionError) ∧
    (p.stopChClosed = false →
      (pinger.PacketsSent : Int) - (pinger.PacketsRecv : Int) >
        intOfUint p.maxPacketLossCount →
      (OnSend p pinger).1.connectionStatus = ConnectionStatus.ConnectionError ∧
      (OnSend p pinger).2.stopped = true ∧ (OnSend p pinger).1.stopChClosed = false) ∧
    (OnRecv p pinger rtt).1.connectionStatus = ConnectionStatus.Connected ∧
    ((doPing p
        { newPingerErr := none, events := evs ++ [ProbeEvent.recv rtt], runErr := none
        }).1.connectionStatus = ConnectionStatus.Connected ∧
      (doPing p
        { newPingerErr := none, events := evs ++ [ProbeEvent.recv rtt], runErr := none
        }).2 = none) ∧
    (p.stopChClosed = false → (doPing p run).2 = none →
      Start p (run :: runs) = Start (doPing p run).1 runs) ∧
    (p.stopChClosed = false → (doPing p run).2 ≠ none →
      Start p (run :: runs) = (doPing p run).1) ∧
    (p.stopChClosed = true → Start p (run :: runs) = p) := by
  refine ⟨?_, ?_, rfl, ⟨?_, rfl⟩, ?_, ?_, Start_stopped p (run :: runs)⟩
  · intro herr
    unfold OnSend
    split
    · exact herr
    · split
      · rfl
      · exact herr
  · intro hopen hloss
    have hres : OnSend p pinger =
        ({ p with
            connectionStatus := ConnectionStatus.ConnectionError
            failureMsg := "Failed to successfully ping the remote endpoint IP " ++
              goQuote p.ip }, pinger.Stop) := by
      unfold OnSend
      simp only [hopen, Bool.false_eq_true, if_false, if_pos hloss]
    rw [hres]
    exact ⟨rfl, rfl, hopen⟩
  · simp only [doPing, runEvents_append]
    rfl
  · intro hopen hnil
    rw [Start]
    simp only [hopen, Bool.false_eq_true, if_false]
    rcases hd : doPing p run with ⟨p1, e⟩
    rw [hd] at hnil
    simp only [] at hnil
    subst hnil
    rfl
  · intro hopen herr
    rw [Start]
    simp only [hopen, Bool.false_eq_true, if_false]
    rcases hd : doPing p run with ⟨p1, e⟩
    rw [hd] at herr
    cases e with
    | none => exact absurd rfl herr
    | some e => rfl

/-- Witness for C15 (amended): the threshold is 3 and the status is Error after a first run of
four unanswered packets; the loop runs `doPing` again, and a run that ends with a reply leaves
the status Connected. -/
theorem error_not_terminal_witness :
    (doPing (examplePinger 3)
      { newPingerErr := none, runErr := none
        events := [ProbeEvent.send 1 0, ProbeEvent.send 2 0, ProbeEvent.send 3 0,
          ProbeEvent.send 4 0] }).1.connectionStatus = ConnectionStatus.ConnectionError ∧
    (doPing (doPing (examplePinger 3)
        { newPingerErr := none, runErr := none
          events := [ProbeEvent.send 1 0, ProbeEvent.send 2 0, ProbeEvent.send 3 0,
            ProbeEvent.send 4 0] }).1
      { newPingerErr := none, runErr := none
        events := [ProbeEvent.send 1 0] ++ [ProbeEvent.recv 250000] }).1.connectionStatus =
        ConnectionStatus.Connected ∧
    Start (examplePinger 3)
      [{ newPingerErr := none, runErr := none
         events := [ProbeEvent.send 1 0, ProbeEvent.send 2 0, ProbeEvent.send 3 0,
           ProbeEvent.send 4 0] }] =
      Start (doPing (examplePinger 3)
        { newPingerErr := none, runErr := none
          events := [ProbeEvent.send 1 0, ProbeEvent.send 2 0, ProbeEvent.send 3 0,
            ProbeEvent.send 4 0] }).1 [] :=
  ⟨by decide,
    (error_not_terminal
      (doPing (examplePinger 3)
        { newPingerErr := none, runErr := none
          events := [ProbeEvent.send 1 0, ProbeEvent.send 2 0, ProbeEvent.send 3 0,
            ProbeEvent.send 4 0] }).1
      { PacketsSent := 0, PacketsRecv := 0, stopped := false } 250000 [ProbeEvent.send 1 0]
      { newPingerErr := none, events := [], runErr := none } []).2.2.2.1.1,
    (error_not_terminal (examplePinger 3)
      { PacketsSent := 0, PacketsRecv := 0, stopped := false } 250000 []
      { newPingerErr := none, runErr := none
        events := [ProbeEvent.send 1 0, ProbeEvent.send 2 0, ProbeEvent.send 3 0,
          ProbeEvent.send 4 0] } []).2.2.2.2.1 (by decide) (by decide)⟩

end healthchecker

/-! ## The claim about `Stop` -/

/-- C16 (counterexample): a second `Stop` of the base controller, and a second `Stop` of the
GlobalEgressIP controller, close an already closed stop channel, which panics. -/
theorem Stop_twice_panics :
    (baseController.Stop { stopChClosed := false }).bind baseController.Stop = none ∧
    (Controller.Stop (exampleController [] [])).isSome = true ∧
    (Controller.Stop (exampleController [] [])).bind Controller.Stop = none := by
  refine ⟨?_, ?_, ?_⟩ <;> decide

/-- C16 (amended): `pingerInfo.Stop` is idempotent: it never panics, it leaves the stop
channel closed, and a second `Stop` is a no-op that leaves the state equal to the state after
the first one. `baseController.Stop` and `globalEgressIPController.Stop` close their stop
channels without a guard: on a controller that was not stopped (its channel and those of its
pod watchers open) the first `Stop` closes them, and a second `Stop` panics. -/
theorem Stop_idempotent_for_pinger_only :
    (∀ p : healthchecker.pingerInfo,
      p.Stop.stopChClosed = true ∧ p.Stop.Stop = p.Stop ∧
      (p.stopChClosed = true → p.Stop = p)) ∧
    (∀ c : baseController, c.stopChClosed = false →
      ∃ c1, c.Stop = some c1 ∧ c1.stopChClosed = true ∧ c1.Stop = none) ∧
    (∀ c : Controller, c.stopChClosed = false →
      (∀ kv ∈ c.podWatchers, kv.2.stopChClosed = false) →
      ∃ c1, c.Stop = some c1 ∧ c1.stopChClosed = true ∧
        (∀ kv ∈ c1.podWatchers, kv.2.stopChClosed = true) ∧
        c1.podWatchers.map (fun kv => kv.1) = c.podWatchers.map (fun kv => kv.1) ∧
        c1.pool = c.pool ∧ c1.Stop = none) := by
  refine ⟨?_, ?_, ?_⟩
  · intro p
    unfold healthchecker.pingerInfo.Stop
    cases h : p.stopChClosed with
    | true => simp [h]
    | false => simp
  · intro c hc
    refine ⟨{ c with stopChClosed := true }, ?_, rfl, ?_⟩
    · unfold baseController.Stop
      simp [hc]
    · unfold baseController.Stop
      simp
  · intro c hc hpw
    have hany : c.podWatchers.any (fun kv => kv.2.stopChClosed) = false := by
      rw [List.any_eq_false]
      intro kv hkv
      simp [hpw kv hkv]
    refine ⟨{ c with
        stopChClosed := true
        podWatchers := c.podWatchers.map (fun kv => (kv.1, { kv.2 with stopChClosed := true })) },
      ?_, rfl, ?_, ?_, rfl, ?_⟩
    · unfold Controller.Stop baseController.Stop
      simp [hc, hany]
    · intro kv hkv
      simp only [List.mem_map] at hkv
      obtain ⟨kv0, _, hkv0⟩ := hkv
      rw [← hkv0]
    · simp [List.map_map, Function.comp]
    · unfold Controller.Stop baseController.Stop
      simp

end Submariner
